import Mathlib

/-!
# Verification of the derived weather-metrics layer

Shallow embedding of the pure calculator functions of the weather
application (trend analysis, comfort scoring, pattern detection, event
detection, impact forecasting) together with proofs about them.

Modelling conventions, used consistently below:

* Weather quantities are embedded as `ℚ`; integer scores as `ℤ`.
* `Math.round` rounds half toward positive infinity (`jsRound`).
* A JavaScript arithmetic result that is not a finite number (`NaN` or
  `±Infinity`, which arise from dividing by zero or from arithmetic on
  `undefined`) is modelled as `none : Option ℚ`.  A comparison such as
  `x > 0` evaluates to `false` in JavaScript when `x` is not a finite
  number obtained this way, which the `oPos`/`oGt`/`oLt` helpers mirror.
* `Math.max(...a)`/`Math.min(...a)` over a possibly empty array only occur
  inside comparisons; `maxGT l c` etc. evaluate exactly as the JavaScript
  comparison does, including the empty case (`Math.max() = -Infinity`).
* Out-of-bounds array reads yield `undefined`; a comparison against
  `undefined` is `false`.  Reads are modelled with `List.get?`.
* Display-only strings (record `description` fields, formatted dates and
  times) are not modelled; day names are modelled by the day index.
-/

/-- JavaScript `Math.round`: round half toward positive infinity. -/
def jsRound (q : ℚ) : ℤ := ⌊q + 1/2⌋

/-- JavaScript `x > c` where `x` may be a non-finite number (`none`). -/
def oGt (x : Option ℚ) (c : ℚ) : Bool :=
  match x with
  | some v => decide (c < v)
  | none => false

/-- JavaScript `x < c` where `x` may be a non-finite number (`none`). -/
def oLt (x : Option ℚ) (c : ℚ) : Bool :=
  match x with
  | some v => decide (v < c)
  | none => false

/-- JavaScript `x > 0` where `x` may be a non-finite number (`none`). -/
def oPos (x : Option ℚ) : Bool := oGt x 0

/-- Subtraction lifted to possibly non-finite operands. -/
def oSub : Option ℚ → Option ℚ → Option ℚ
  | some a, some b => some (a - b)
  | _, _ => none

/-- JavaScript division: a zero divisor produces a non-finite number. -/
def oDiv : Option ℚ → Option ℚ → Option ℚ
  | some a, some b => if b = 0 then none else some (a / b)
  | _, _ => none

/-- Multiplication by a constant, lifted. -/
def oMulC (x : Option ℚ) (c : ℚ) : Option ℚ := x.map (· * c)

/-- `Math.abs`, lifted (the absolute value of a non-finite number is
non-finite). -/
def oAbs (x : Option ℚ) : Option ℚ := x.map (|·|)

/-- JavaScript `Math.max(...l) > c` (false for an empty array). -/
def maxGT (l : List ℚ) (c : ℚ) : Bool := l.any fun x => decide (c < x)

/-- JavaScript `Math.max(...l) >= c` (false for an empty array). -/
def maxGE (l : List ℚ) (c : ℚ) : Bool := l.any fun x => decide (c ≤ x)

/-- JavaScript `Math.max(...l) < c` (true for an empty array). -/
def maxLT (l : List ℚ) (c : ℚ) : Bool := l.all fun x => decide (x < c)

/-- JavaScript `Math.min(...l) <= c` (false for an empty array). -/
def minLE (l : List ℚ) (c : ℚ) : Bool := l.any fun x => decide (x ≤ c)

/-- JavaScript `arr.slice(a, b)` for natural bounds. -/
def jsSlice (l : List ℚ) (a b : ℕ) : List ℚ := (l.drop a).take (b - a)

/-- JavaScript `arr.reduce((x,y) => x+y, 0) / arr.length`: `NaN` (`none`)
exactly when the array is empty. -/
def listAvg (l : List ℚ) : Option ℚ :=
  if l.length = 0 then none else some (l.sum / l.length)

/-! ## Comfort scorer (predictive comfort index module)

Embeds `calculateComfortScore`, `calculateComfortIndex` and
`findOptimalWindows`.  The `factors` breakdown of the result record and the
formatted time strings are display-only and not modelled; the `start`/`end`
time strings of a window are modelled by the indices of its first and last
hour, which the strictly increasing hourly `time` array puts in bijection
with the source's time strings. -/

/-- `calculateComfortScore`: 100 minus six independently capped deductions,
rounded, clamped at 0.  Transcribed from the source's sequential score
updates. -/
def calculateComfortScore (temp humidity windSpeed uvIndex precipitation feelsLike : ℚ) : ℤ :=
  let score : ℚ := 100
  let tempDiff := |temp - 21|
  let score := if tempDiff > 3 then score - min 30 (tempDiff * 2) else score
  let feelsLikeDiff := |feelsLike - temp|
  let score := if feelsLikeDiff > 3 then score - min 15 (feelsLikeDiff * 1.5) else score
  let score :=
    if humidity > 70 then score - min 20 ((humidity - 70) * 0.5)
    else if humidity < 30 then score - min 20 ((30 - humidity) * 0.5)
    else score
  let score := if windSpeed > 15 then score - min 20 ((windSpeed - 15) * 0.5) else score
  let score := if uvIndex > 5 then score - min 15 ((uvIndex - 5) * 2) else score
  let score := if precipitation > 0 then score - min 25 (precipitation * 5) else score
  max 0 (jsRound score)

/-- Modelled from the spec (§4.2 table): temperature deduction
`2 × |temp−21|` if `|temp−21| > 3`, capped at 30. -/
def specTempDeduction (temp : ℚ) : ℚ :=
  if |temp - 21| > 3 then min 30 (2 * |temp - 21|) else 0

/-- Modelled from the spec (§4.2 table): feels-like-gap deduction
`1.5 × |feelsLike−temp|` if the gap exceeds 3, capped at 15. -/
def specFeelsDeduction (temp feelsLike : ℚ) : ℚ :=
  if |feelsLike - temp| > 3 then min 15 (1.5 * |feelsLike - temp|) else 0

/-- Modelled from the spec (§4.2 table): humidity deduction
`0.5 × (humidity−70)` if `> 70`, `0.5 × (30−humidity)` if `< 30`, capped at 20. -/
def specHumidityDeduction (humidity : ℚ) : ℚ :=
  if humidity > 70 then min 20 (0.5 * (humidity - 70))
  else if humidity < 30 then min 20 (0.5 * (30 - humidity))
  else 0

/-- Modelled from the spec (§4.2 table): wind deduction
`0.5 × (wind−15)` if `> 15`, capped at 20. -/
def specWindDeduction (windSpeed : ℚ) : ℚ :=
  if windSpeed > 15 then min 20 (0.5 * (windSpeed - 15)) else 0

/-- Modelled from the spec (§4.2 table): UV deduction `2 × (uv−5)` if `> 5`,
capped at 15. -/
def specUVDeduction (uvIndex : ℚ) : ℚ :=
  if uvIndex > 5 then min 15 (2 * (uvIndex - 5)) else 0

/-- Modelled from the spec (§4.2 table): precipitation deduction
`5 × precipitation` if `> 0`, capped at 25. -/
def specPrecipDeduction (precipitation : ℚ) : ℚ :=
  if precipitation > 0 then min 25 (5 * precipitation) else 0

/-- Modelled from the spec (§4.2): `max(0, round(100 − Σ deductions))`. -/
def specComfortScore (temp humidity windSpeed uvIndex precipitation feelsLike : ℚ) : ℤ :=
  max 0 (jsRound (100 -
    (specTempDeduction temp + specFeelsDeduction temp feelsLike +
      specHumidityDeduction humidity + specWindDeduction windSpeed +
      specUVDeduction uvIndex + specPrecipDeduction precipitation)))

theorem sub_ite_zero (c : Prop) [Decidable c] (s d : ℚ) :
    (if c then s - d else s) = s - (if c then d else 0) := by
  split_ifs <;> ring

theorem sub_ite_ite_zero (c c' : Prop) [Decidable c] [Decidable c'] (s d d' : ℚ) :
    (if c then s - d else if c' then s - d' else s)
      = s - (if c then d else if c' then d' else 0) := by
  split_ifs <;> ring

theorem specTempDeduction_eq (temp : ℚ) :
    (if |temp - 21| > 3 then min 30 (|temp - 21| * 2) else 0) = specTempDeduction temp := by
  rw [specTempDeduction, mul_comm]

theorem specFeelsDeduction_eq (temp feelsLike : ℚ) :
    (if |feelsLike - temp| > 3 then min 15 (|feelsLike - temp| * 1.5) else 0)
      = specFeelsDeduction temp feelsLike := by
  rw [specFeelsDeduction, mul_comm]

theorem specHumidityDeduction_eq (humidity : ℚ) :
    (if humidity > 70 then min 20 ((humidity - 70) * 0.5)
      else if humidity < 30 then min 20 ((30 - humidity) * 0.5) else 0)
      = specHumidityDeduction humidity := by
  rw [specHumidityDeduction, mul_comm, mul_comm (30 - humidity)]

theorem specWindDeduction_eq (windSpeed : ℚ) :
    (if windSpeed > 15 then min 20 ((windSpeed - 15) * 0.5) else 0)
      = specWindDeduction windSpeed := by
  rw [specWindDeduction, mul_comm]

theorem specUVDeduction_eq (uvIndex : ℚ) :
    (if uvIndex > 5 then min 15 ((uvIndex - 5) * 2) else 0) = specUVDeduction uvIndex := by
  rw [specUVDeduction, mul_comm]

theorem specPrecipDeduction_eq (precipitation : ℚ) :
    (if precipitation > 0 then min 25 (precipitation * 5) else 0)
      = specPrecipDeduction precipitation := by
  rw [specPrecipDeduction, mul_comm]

theorem calculateComfortScore_eq_spec (temp humidity windSpeed uvIndex precipitation feelsLike : ℚ) :
    calculateComfortScore temp humidity windSpeed uvIndex precipitation feelsLike
      = specComfortScore temp humidity windSpeed uvIndex precipitation feelsLike := by
  rw [calculateComfortScore]
  rw [sub_ite_zero, sub_ite_zero, sub_ite_ite_zero, sub_ite_zero, sub_ite_zero, sub_ite_zero]
  rw [specTempDeduction_eq, specFeelsDeduction_eq, specHumidityDeduction_eq,
    specWindDeduction_eq, specUVDeduction_eq, specPrecipDeduction_eq, specComfortScore]
  congr 2
  ring

theorem jsRound_mono {a b : ℚ} (h : a ≤ b) : jsRound a ≤ jsRound b :=
  Int.floor_le_floor (by linarith)

theorem jsRound_100 : jsRound 100 = 100 := by
  rw [jsRound]
  norm_num [Int.floor_eq_iff]

theorem specTempDeduction_nonneg (temp : ℚ) : 0 ≤ specTempDeduction temp := by
  rw [specTempDeduction]
  split_ifs with h
  · exact le_min (by norm_num) (by positivity)
  · exact le_refl 0

theorem specFeelsDeduction_nonneg (temp feelsLike : ℚ) : 0 ≤ specFeelsDeduction temp feelsLike := by
  rw [specFeelsDeduction]
  split_ifs with h
  · exact le_min (by norm_num) (by positivity)
  · exact le_refl 0

theorem specHumidityDeduction_nonneg (humidity : ℚ) : 0 ≤ specHumidityDeduction humidity := by
  rw [specHumidityDeduction]
  split_ifs with h h'
  · exact le_min (by norm_num) (by linarith)
  · exact le_min (by norm_num) (by linarith)
  · exact le_refl 0

theorem specWindDeduction_nonneg (windSpeed : ℚ) : 0 ≤ specWindDeduction windSpeed := by
  rw [specWindDeduction]
  split_ifs with h
  · exact le_min (by norm_num) (by linarith)
  · exact le_refl 0

theorem specUVDeduction_nonneg (uvIndex : ℚ) : 0 ≤ specUVDeduction uvIndex := by
  rw [specUVDeduction]
  split_ifs with h
  · exact le_min (by norm_num) (by linarith)
  · exact le_refl 0

theorem specPrecipDeduction_nonneg (precipitation : ℚ) : 0 ≤ specPrecipDeduction precipitation := by
  rw [specPrecipDeduction]
  split_ifs with h
  · exact le_min (by norm_num) (by linarith)
  · exact le_refl 0

theorem calculateComfortScore_nonneg (temp humidity windSpeed uvIndex precipitation feelsLike : ℚ) :
    0 ≤ calculateComfortScore temp humidity windSpeed uvIndex precipitation feelsLike := by
  rw [calculateComfortScore_eq_spec, specComfortScore]
  exact le_max_left 0 _

theorem calculateComfortScore_le_100 (temp humidity windSpeed uvIndex precipitation feelsLike : ℚ) :
    calculateComfortScore temp humidity windSpeed uvIndex precipitation feelsLike ≤ 100 := by
  rw [calculateComfortScore_eq_spec, specComfortScore]
  refine max_le (by norm_num) ?_
  calc jsRound (100 -
      (specTempDeduction temp + specFeelsDeduction temp feelsLike +
        specHumidityDeduction humidity + specWindDeduction windSpeed +
        specUVDeduction uvIndex + specPrecipDeduction precipitation)) ≤ jsRound 100 := by
        refine jsRound_mono ?_
        have h1 := specTempDeduction_nonneg temp
        have h2 := specFeelsDeduction_nonneg temp feelsLike
        have h3 := specHumidityDeduction_nonneg humidity
        have h4 := specWindDeduction_nonneg windSpeed
        have h5 := specUVDeduction_nonneg uvIndex
        have h6 := specPrecipDeduction_nonneg precipitation
        linarith
    _ = 100 := jsRound_100

/-- A single entry of `hourlyComfort`: hour of day, comfort score, raw
temperature and feels-like temperature (the formatted `time` string is
display-only and not modelled). -/
structure ComfortHour where
  hour : ℕ
  score : ℤ
  temperature : ℚ
  feelsLike : ℚ
deriving DecidableEq

/-- The `current` group of a weather snapshot, as used by the comfort
module.  A field that is absent in the source payload reads as `undefined`
and every use below is guarded with `|| 0` or compared, so 0 models it. -/
structure ComfortCurrent where
  temperature_2m : ℚ
  relative_humidity_2m : ℚ
  wind_speed_10m : ℚ
  precipitation : ℚ
  apparent_temperature : ℚ
deriving DecidableEq

/-- The `hourly` group of a weather snapshot, as used by the comfort
module.  `time` is modelled by each entry's hour of day (the only datum the
module extracts from the time string). `uv_index` is accessed through
optional chaining in the source, hence `Option`. -/
structure ComfortHourly where
  time : List ℕ
  temperature_2m : List ℚ
  relative_humidity_2m : List ℚ
  wind_speed_10m : List ℚ
  uv_index : Option (List ℚ)
  precipitation : List ℚ
  apparent_temperature : List ℚ
deriving DecidableEq

/-- The `daily` group of a weather snapshot, as used by the comfort module
(only `uv_index_max[0]` is read, through optional chaining). -/
structure ComfortDaily where
  uv_index_max : List ℚ
deriving DecidableEq

/-- A weather snapshot as consumed by `calculateComfortIndex`; each group
may be absent. -/
structure ComfortData where
  current : Option ComfortCurrent
  hourly : Option ComfortHourly
  daily : Option ComfortDaily
deriving DecidableEq

/-- `daily?.uv_index_max?.[0] || 0`. -/
def comfortUV (daily : Option ComfortDaily) : ℚ :=
  match daily with
  | some d => d.uv_index_max.getD 0 0
  | none => 0

/-- `hourly.uv_index?.[i] || 0`. -/
def comfortHourUV (uv_index : Option (List ℚ)) (i : ℕ) : ℚ :=
  match uv_index with
  | some l => l.getD i 0
  | none => 0

/-- An open window maintained by the scan of `findOptimalWindows`.
`avgScore` is maintained incrementally in the source; here it is carried as
the exact running `total` of the window's scores, with
`avgScore = total / count`. -/
structure OpenWindow where
  startIdx : ℕ
  startHour : ℕ
  stopIdx : ℕ
  count : ℕ
  total : ℤ
deriving DecidableEq

/-- `getRecommendedActivity`, transcribed. -/
def getRecommendedActivity (score : ℚ) (hour : ℕ) : String :=
  if 90 ≤ score then
    if 6 ≤ hour ∧ hour ≤ 9 then "Morning run or walk"
    else if 10 ≤ hour ∧ hour ≤ 16 then "Outdoor sports or picnic"
    else if 17 ≤ hour ∧ hour ≤ 20 then "Evening outdoor dining"
    else "Outdoor activities"
  else if 80 ≤ score then
    if 6 ≤ hour ∧ hour ≤ 9 then "Morning exercise"
    else if 10 ≤ hour ∧ hour ≤ 16 then "Outdoor activities with breaks"
    else if 17 ≤ hour ∧ hour ≤ 20 then "Evening walk"
    else "Light outdoor activities"
  else if 70 ≤ score then "Short outdoor activities"
  else "Indoor activities recommended"

/-- An emitted optimal window.  `startIdx`/`stopIdx` are the indices of its
first and last hour (the source stores the corresponding time strings). -/
structure ComfortWindow where
  startIdx : ℕ
  stopIdx : ℕ
  score : ℤ
  duration : ℕ
  activity : String
deriving DecidableEq

/-- Closing an open window produces the emitted record. -/
def closeWindow (w : OpenWindow) : ComfortWindow :=
  { startIdx := w.startIdx
    stopIdx := w.stopIdx
    score := jsRound ((w.total : ℚ) / (w.count : ℚ))
    duration := w.count
    activity := getRecommendedActivity ((w.total : ℚ) / (w.count : ℚ)) w.startHour }

/-- The left-to-right scan of `findOptimalWindows`; `i` is the index of the
next entry. -/
def findOptimalWindowsAux : List ComfortHour → ℕ → Option OpenWindow → List ComfortWindow
  | [], _, none => []
  | [], _, some w => if 2 ≤ w.count then [closeWindow w] else []
  | h :: rest, i, cur =>
    if 70 ≤ h.score then
      match cur with
      | none => findOptimalWindowsAux rest (i + 1)
          (some { startIdx := i, startHour := h.hour, stopIdx := i, count := 1, total := h.score })
      | some w => findOptimalWindowsAux rest (i + 1)
          (some { startIdx := w.startIdx, startHour := w.startHour, stopIdx := i,
                  count := w.count + 1, total := w.total + h.score })
    else
      match cur with
      | some w =>
        if 2 ≤ w.count then closeWindow w :: findOptimalWindowsAux rest (i + 1) none
        else findOptimalWindowsAux rest (i + 1) none
      | none => findOptimalWindowsAux rest (i + 1) none

/-- `findOptimalWindows`: scan, then keep the first three windows. -/
def findOptimalWindows (hourlyComfort : List ComfortHour) : List ComfortWindow :=
  (findOptimalWindowsAux hourlyComfort 0 none).take 3

/-- The result record of `calculateComfortIndex` (the `factors` breakdown
and the `forecast` alias of `hourlyComfort` are display-only and not
modelled). -/
structure ComfortResult where
  currentComfort : ℤ
  hourlyComfort : List ComfortHour
  optimalWindows : List ComfortWindow
deriving DecidableEq

/-- `calculateComfortIndex`, transcribed.  `current.precipitation || 0` and
`hourly.precipitation[i] || 0` map 0 and `undefined` to 0, which `getD` and
the plain field model; `hourly.uv_index?.[i] || 0` likewise. -/
def calculateComfortIndex (weatherData : Option ComfortData) : ComfortResult :=
  match weatherData with
  | none => { currentComfort := 50, hourlyComfort := [], optimalWindows := [] }
  | some wd =>
    match wd.current, wd.hourly with
    | some current, some hourly =>
      let currentComfort := calculateComfortScore current.temperature_2m
        current.relative_humidity_2m current.wind_speed_10m (comfortUV wd.daily)
        current.precipitation current.apparent_temperature
      let hourlyComfort := (List.range (min 24 hourly.time.length)).map fun i =>
        { hour := hourly.time.getD i 0
          score := calculateComfortScore (hourly.temperature_2m.getD i 0)
            (hourly.relative_humidity_2m.getD i 0) (hourly.wind_speed_10m.getD i 0)
            (comfortHourUV hourly.uv_index i)
            (hourly.precipitation.getD i 0) (hourly.apparent_temperature.getD i 0)
          temperature := hourly.temperature_2m.getD i 0
          feelsLike := hourly.apparent_temperature.getD i 0 }
      { currentComfort := currentComfort
        hourlyComfort := hourlyComfort
        optimalWindows := findOptimalWindows hourlyComfort }
    | _, _ => { currentComfort := 50, hourlyComfort := [], optimalWindows := [] }

/-- The comfort score stored at index `j` of an hourly-comfort list. -/
def scoreAt (l : List ComfortHour) (j : ℕ) : ℤ := (l.map ComfortHour.score).getD j 0

theorem scoreAt_of_get? {L : List ComfortHour} {i : ℕ} {h : ComfortHour}
    (hh : L.get? i = some h) : scoreAt L i = h.score := by
  rw [scoreAt, List.getD_eq_getElem?_getD, ← List.get?_eq_getElem?,
    List.get?_map, hh]
  rfl

theorem closeWindow_startIdx (w : OpenWindow) : (closeWindow w).startIdx = w.startIdx := rfl

theorem closeWindow_stopIdx (w : OpenWindow) : (closeWindow w).stopIdx = w.stopIdx := rfl

theorem closeWindow_duration (w : OpenWindow) : (closeWindow w).duration = w.count := rfl

/-- The scan invariant: an open window at position `i` covers exactly the
indices `[startIdx, i)`, all of which scored at least 70. -/
def WindowInv (L : List ComfortHour) (i : ℕ) : Option OpenWindow → Prop
  | none => True
  | some w => w.startIdx + w.count = i ∧ w.stopIdx + 1 = i ∧ 1 ≤ w.count ∧
      ∀ j, w.startIdx ≤ j → j < i → 70 ≤ scoreAt L j

/-- The earliest index any window emitted from state `cur` at position `i`
can start at. -/
def curStart (i : ℕ) : Option OpenWindow → ℕ
  | none => i
  | some w => w.startIdx

theorem findOptimalWindowsAux_spec (L : List ComfortHour) :
    ∀ (l : List ComfortHour) (i : ℕ) (cur : Option OpenWindow),
      l = L.drop i → i ≤ L.length → WindowInv L i cur →
      (∀ w ∈ findOptimalWindowsAux l i cur,
          (2 ≤ w.duration ∧ w.stopIdx + 1 = w.startIdx + w.duration ∧
            w.stopIdx < L.length ∧
            ∀ j, w.startIdx ≤ j → j ≤ w.stopIdx → 70 ≤ scoreAt L j) ∧
          curStart i cur ≤ w.startIdx) ∧
      (findOptimalWindowsAux l i cur).Pairwise fun a b => a.stopIdx < b.startIdx := by
  intro l
  induction l with
  | nil =>
    intro i cur hdrop hi hinv
    cases cur with
    | none => simp [findOptimalWindowsAux]
    | some w =>
      obtain ⟨hcnt, hstop, hone, hsc⟩ := hinv
      by_cases h2 : 2 ≤ w.count
      · constructor
        · intro x hx
          simp only [findOptimalWindowsAux, if_pos h2, List.mem_singleton] at hx
          subst hx
          refine ⟨⟨?_, ?_, ?_, ?_⟩, le_refl _⟩
          · rw [closeWindow_duration]; exact h2
          · rw [closeWindow_stopIdx, closeWindow_startIdx, closeWindow_duration]; omega
          · rw [closeWindow_stopIdx]; omega
          · rw [closeWindow_startIdx, closeWindow_stopIdx]
            intro j hj1 hj2
            exact hsc j hj1 (by omega)
        · simp [findOptimalWindowsAux, if_pos h2]
      · simp [findOptimalWindowsAux, if_neg h2]
  | cons h rest ih =>
    intro i cur hdrop hi hinv
    have hget : L.get? i = some h := by
      have : (L.drop i).get? 0 = some h := by rw [← hdrop]; rfl
      rwa [List.get?_drop, Nat.add_zero] at this
    have hilt : i < L.length := List.get?_eq_some.mp hget |>.1
    have hrest : rest = L.drop (i + 1) := by
      have : (L.drop i).tail = L.drop (i + 1) := by
        rw [← List.drop_one, List.drop_drop, Nat.add_comm]
      rw [← this, ← hdrop]
      rfl
    have hscore : scoreAt L i = h.score := scoreAt_of_get? hget
    by_cases hsc : 70 ≤ h.score
    · cases cur with
      | none =>
        have heq : findOptimalWindowsAux (h :: rest) i none
            = findOptimalWindowsAux rest (i + 1)
              (some { startIdx := i, startHour := h.hour, stopIdx := i, count := 1, total := h.score }) := by
          simp [findOptimalWindowsAux, if_pos hsc]
        rw [heq]
        have hinv' : WindowInv L (i + 1)
            (some { startIdx := i, startHour := h.hour, stopIdx := i, count := 1, total := h.score }) := by
          refine ⟨rfl, rfl, le_refl 1, ?_⟩
          intro j hj1 hj2
          have hj1' : i ≤ j := hj1
          have hj2' : j < i + 1 := hj2
          have hji : j = i := by omega
          subst hji
          rw [hscore]
          exact hsc
        obtain ⟨hmem, hpw⟩ := ih (i + 1)
          (some { startIdx := i, startHour := h.hour, stopIdx := i, count := 1, total := h.score })
          hrest (by omega) hinv'
        refine ⟨?_, hpw⟩
        intro w hw
        obtain ⟨hok, hst⟩ := hmem w hw
        exact ⟨hok, hst⟩
      | some w =>
        obtain ⟨hcnt, hstop, hone, hsco⟩ := hinv
        have heq : findOptimalWindowsAux (h :: rest) i (some w)
            = findOptimalWindowsAux rest (i + 1)
              (some { startIdx := w.startIdx, startHour := w.startHour, stopIdx := i,
                      count := w.count + 1, total := w.total + h.score }) := by
          simp [findOptimalWindowsAux, if_pos hsc]
        rw [heq]
        have hinv' : WindowInv L (i + 1)
            (some { startIdx := w.startIdx, startHour := w.startHour, stopIdx := i,
                    count := w.count + 1, total := w.total + h.score }) := by
          refine ⟨show w.startIdx + (w.count + 1) = i + 1 by omega, rfl,
            Nat.le_add_left 1 w.count, ?_⟩
          intro j hj1 hj2
          have hj1' : w.startIdx ≤ j := hj1
          have hj2' : j < i + 1 := hj2
          by_cases hji : j < i
          · exact hsco j hj1' hji
          · have hje : j = i := by omega
            subst hje
            rw [hscore]
            exact hsc
        obtain ⟨hmem, hpw⟩ := ih (i + 1)
          (some { startIdx := w.startIdx, startHour := w.startHour, stopIdx := i,
                  count := w.count + 1, total := w.total + h.score })
          hrest (by omega) hinv'
        refine ⟨?_, hpw⟩
        intro x hx
        obtain ⟨hok, hst⟩ := hmem x hx
        exact ⟨hok, hst⟩
    · cases cur with
      | none =>
        have heq : findOptimalWindowsAux (h :: rest) i none
            = findOptimalWindowsAux rest (i + 1) none := by
          simp [findOptimalWindowsAux, if_neg hsc]
        rw [heq]
        obtain ⟨hmem, hpw⟩ := ih (i + 1) none hrest (by omega) trivial
        refine ⟨?_, hpw⟩
        intro x hx
        obtain ⟨hok, hst⟩ := hmem x hx
        have hst' : i + 1 ≤ x.startIdx := hst
        exact ⟨hok, Nat.le_of_succ_le hst'⟩
      | some w =>
        obtain ⟨hcnt, hstop, hone, hsco⟩ := hinv
        by_cases h2 : 2 ≤ w.count
        · have heq : findOptimalWindowsAux (h :: rest) i (some w)
              = closeWindow w :: findOptimalWindowsAux rest (i + 1) none := by
            simp [findOptimalWindowsAux, if_neg hsc, if_pos h2]
          rw [heq]
          obtain ⟨hmem, hpw⟩ := ih (i + 1) none hrest (by omega) trivial
          constructor
          · intro x hx
            rcases List.mem_cons.mp hx with hx | hx
            · subst hx
              rw [closeWindow_startIdx]
              refine ⟨⟨?_, ?_, ?_, ?_⟩, le_refl _⟩
              · rw [closeWindow_duration]; exact h2
              · rw [closeWindow_stopIdx, closeWindow_duration]; omega
              · rw [closeWindow_stopIdx]; omega
              · rw [closeWindow_stopIdx]
                intro j hj1 hj2
                exact hsco j hj1 (by omega)
            · obtain ⟨hok, hst⟩ := hmem x hx
              refine ⟨hok, ?_⟩
              simp only [curStart] at hst ⊢
              omega
          · refine List.Pairwise.cons ?_ hpw
            intro x hx
            obtain ⟨hok, hst⟩ := hmem x hx
            simp only [curStart] at hst
            rw [closeWindow_stopIdx]
            omega
        · have heq : findOptimalWindowsAux (h :: rest) i (some w)
              = findOptimalWindowsAux rest (i + 1) none := by
            simp [findOptimalWindowsAux, if_neg hsc, if_neg h2]
          rw [heq]
          obtain ⟨hmem, hpw⟩ := ih (i + 1) none hrest (by omega) trivial
          refine ⟨?_, hpw⟩
          intro x hx
          obtain ⟨hok, hst⟩ := hmem x hx
          refine ⟨hok, ?_⟩
          simp only [curStart] at hst ⊢
          omega

/-- Claim C4: for every hourly-comfort sequence, `findOptimalWindows` emits
only windows of at least 2 consecutive hours whose scores are all at least
70 (a window still open at the end of the array is emitted under the same
rule — the scan's final flush is part of `findOptimalWindowsAux`), no two
emitted windows overlap (each window ends strictly before the next one
starts), and at most 3 windows are returned. -/
theorem claim_C4 (hourlyComfort : List ComfortHour) :
    (findOptimalWindows hourlyComfort).length ≤ 3
    ∧ (∀ w ∈ findOptimalWindows hourlyComfort,
        2 ≤ w.duration
        ∧ w.stopIdx + 1 = w.startIdx + w.duration
        ∧ w.stopIdx < hourlyComfort.length
        ∧ ∀ j, w.startIdx ≤ j → j ≤ w.stopIdx → 70 ≤ scoreAt hourlyComfort j)
    ∧ (findOptimalWindows hourlyComfort).Pairwise fun a b => a.stopIdx < b.startIdx := by
  obtain ⟨hmem, hpw⟩ := findOptimalWindowsAux_spec hourlyComfort hourlyComfort 0 none
    rfl (Nat.zero_le _) trivial
  refine ⟨?_, ?_, ?_⟩
  · rw [findOptimalWindows, List.length_take]
    exact min_le_left 3 _
  · intro w hw
    exact (hmem w (List.mem_of_mem_take hw)).1
  · exact hpw.sublist (List.take_sublist 3 _)

/-- Claim C3: `calculateComfortScore` equals
`max(0, round(100 − Σ deductions))` with the six independently capped
deductions of the spec's table, the result always lies in `[0, 100]`, and
`calculateComfortIndex` applies the very same function to the current
sample and to every hour used to build `hourlyComfort`. -/
theorem claim_C3 :
    (∀ temp humidity windSpeed uvIndex precipitation feelsLike : ℚ,
      calculateComfortScore temp humidity windSpeed uvIndex precipitation feelsLike
        = specComfortScore temp humidity windSpeed uvIndex precipitation feelsLike
      ∧ 0 ≤ calculateComfortScore temp humidity windSpeed uvIndex precipitation feelsLike
      ∧ calculateComfortScore temp humidity windSpeed uvIndex precipitation feelsLike ≤ 100)
    ∧ (∀ (wd : ComfortData) (current : ComfortCurrent) (hourly : ComfortHourly),
        wd.current = some current → wd.hourly = some hourly →
        (calculateComfortIndex (some wd)).currentComfort
          = calculateComfortScore current.temperature_2m current.relative_humidity_2m
              current.wind_speed_10m (comfortUV wd.daily) current.precipitation
              current.apparent_temperature
        ∧ ∀ e ∈ (calculateComfortIndex (some wd)).hourlyComfort,
            ∃ i, i < min 24 hourly.time.length ∧
              e.score = calculateComfortScore (hourly.temperature_2m.getD i 0)
                (hourly.relative_humidity_2m.getD i 0) (hourly.wind_speed_10m.getD i 0)
                (comfortHourUV hourly.uv_index i)
                (hourly.precipitation.getD i 0) (hourly.apparent_temperature.getD i 0)) := by
  constructor
  · intro temp humidity windSpeed uvIndex precipitation feelsLike
    exact ⟨calculateComfortScore_eq_spec _ _ _ _ _ _,
      calculateComfortScore_nonneg _ _ _ _ _ _,
      calculateComfortScore_le_100 _ _ _ _ _ _⟩
  · intro wd current hourly hcur hhr
    obtain ⟨wc, wh, wdaily⟩ := wd
    simp only at hcur hhr
    subst hcur
    subst hhr
    constructor
    · rfl
    · intro e he
      simp only [calculateComfortIndex, List.mem_map, List.mem_range] at he
      obtain ⟨i, hi, he⟩ := he
      subst he
      exact ⟨i, hi, rfl⟩

/-- Modelled from the spec's phrase "humidity deviation from [40,60]": the
distance of a humidity value from the ideal band. -/
def humidityDeviation (humidity : ℚ) : ℚ := max 0 (max (humidity - 60) (40 - humidity))

/-- The humidity deduction as a function of the deviation from `[40,60]`. -/
def specHumDevDeduction (d : ℚ) : ℚ := if d > 10 then min 20 (0.5 * (d - 10)) else 0

theorem specHumidityDeduction_eq_dev (humidity : ℚ) :
    specHumidityDeduction humidity = specHumDevDeduction (humidityDeviation humidity) := by
  rw [specHumidityDeduction, specHumDevDeduction, humidityDeviation]
  rcases lt_or_le (70 : ℚ) humidity with h70 | h70
  · rw [if_pos h70]
    rw [max_eq_left (by linarith : (40 : ℚ) - humidity ≤ humidity - 60),
      max_eq_right (by linarith : (0 : ℚ) ≤ humidity - 60)]
    rw [if_pos (by linarith : (10 : ℚ) < humidity - 60)]
    congr 1
    ring
  · rw [if_neg (by linarith)]
    rcases lt_or_le humidity (30 : ℚ) with h30 | h30
    · rw [if_pos h30]
      rw [max_eq_right (by linarith : humidity - 60 ≤ (40 : ℚ) - humidity),
        max_eq_right (by linarith : (0 : ℚ) ≤ 40 - humidity)]
      rw [if_pos (by linarith : (10 : ℚ) < 40 - humidity)]
      congr 1
      ring
    · rw [if_neg (by linarith)]
      have hle : max (humidity - 60) (40 - humidity) ≤ 10 := by
        apply max_le <;> linarith
      rw [if_neg]
      rw [not_lt]
      exact le_trans (max_le (by norm_num) hle) (le_refl _)

theorem specTempDeduction_mono {t1 t2 : ℚ} (h : |t1 - 21| ≤ |t2 - 21|) :
    specTempDeduction t1 ≤ specTempDeduction t2 := by
  rw [specTempDeduction, specTempDeduction]
  have h1 : (0 : ℚ) ≤ |t1 - 21| := abs_nonneg _
  split_ifs with ha hb
  · exact min_le_min (le_refl 30) (by linarith)
  · linarith
  · exact le_min (by norm_num) (by linarith)
  · exact le_refl 0

theorem specHumDevDeduction_mono {d1 d2 : ℚ} (h : d1 ≤ d2) :
    specHumDevDeduction d1 ≤ specHumDevDeduction d2 := by
  rw [specHumDevDeduction, specHumDevDeduction]
  split_ifs with ha hb
  · exact min_le_min (le_refl 20) (by linarith)
  · linarith
  · exact le_min (by norm_num) (by linarith)
  · exact le_refl 0

theorem specWindDeduction_mono {w1 w2 : ℚ} (h : w1 ≤ w2) :
    specWindDeduction w1 ≤ specWindDeduction w2 := by
  rw [specWindDeduction, specWindDeduction]
  split_ifs with ha hb
  · exact min_le_min (le_refl 20) (by linarith)
  · linarith
  · exact le_min (by norm_num) (by linarith)
  · exact le_refl 0

theorem specUVDeduction_mono {u1 u2 : ℚ} (h : u1 ≤ u2) :
    specUVDeduction u1 ≤ specUVDeduction u2 := by
  rw [specUVDeduction, specUVDeduction]
  split_ifs with ha hb
  · exact min_le_min (le_refl 15) (by linarith)
  · linarith
  · exact le_min (by norm_num) (by linarith)
  · exact le_refl 0

theorem specPrecipDeduction_mono {p1 p2 : ℚ} (h : p1 ≤ p2) :
    specPrecipDeduction p1 ≤ specPrecipDeduction p2 := by
  rw [specPrecipDeduction, specPrecipDeduction]
  split_ifs with ha hb
  · exact min_le_min (le_refl 25) (by linarith)
  · linarith
  · exact le_min (by norm_num) (by linarith)
  · exact le_refl 0

theorem specTempDeduction_21 : specTempDeduction 21 = 0 := by
  norm_num [specTempDeduction]

theorem specFeelsDeduction_self (t : ℚ) : specFeelsDeduction t t = 0 := by
  simp [specFeelsDeduction]

theorem specHumidityDeduction_50 : specHumidityDeduction 50 = 0 := by
  norm_num [specHumidityDeduction]

theorem specWindDeduction_0 : specWindDeduction 0 = 0 := by
  norm_num [specWindDeduction]

theorem specUVDeduction_0 : specUVDeduction 0 = 0 := by
  norm_num [specUVDeduction]

theorem specPrecipDeduction_0 : specPrecipDeduction 0 = 0 := by
  norm_num [specPrecipDeduction]

theorem score_of_single_deduction_antitone {d1 d2 : ℚ} (h : d1 ≤ d2) :
    max 0 (jsRound (100 - d2)) ≤ max 0 (jsRound (100 - d1)) :=
  max_le_max (le_refl 0) (jsRound_mono (by linarith))

theorem ccs_temp_iso (t : ℚ) :
    calculateComfortScore t 50 0 0 0 t = max 0 (jsRound (100 - specTempDeduction t)) := by
  rw [calculateComfortScore_eq_spec, specComfortScore, specFeelsDeduction_self,
    specHumidityDeduction_50, specWindDeduction_0, specUVDeduction_0, specPrecipDeduction_0]
  norm_num

theorem ccs_hum_iso (h : ℚ) :
    calculateComfortScore 21 h 0 0 0 21 = max 0 (jsRound (100 - specHumidityDeduction h)) := by
  rw [calculateComfortScore_eq_spec, specComfortScore, specFeelsDeduction_self,
    specTempDeduction_21, specWindDeduction_0, specUVDeduction_0, specPrecipDeduction_0]
  norm_num

theorem ccs_wind_iso (w : ℚ) :
    calculateComfortScore 21 50 w 0 0 21 = max 0 (jsRound (100 - specWindDeduction w)) := by
  rw [calculateComfortScore_eq_spec, specComfortScore, specFeelsDeduction_self,
    specTempDeduction_21, specHumidityDeduction_50, specUVDeduction_0, specPrecipDeduction_0]
  norm_num

theorem ccs_uv_iso (u : ℚ) :
    calculateComfortScore 21 50 0 u 0 21 = max 0 (jsRound (100 - specUVDeduction u)) := by
  rw [calculateComfortScore_eq_spec, specComfortScore, specFeelsDeduction_self,
    specTempDeduction_21, specHumidityDeduction_50, specWindDeduction_0, specPrecipDeduction_0]
  norm_num

theorem ccs_precip_iso (p : ℚ) :
    calculateComfortScore 21 50 0 0 p 21 = max 0 (jsRound (100 - specPrecipDeduction p)) := by
  rw [calculateComfortScore_eq_spec, specComfortScore, specFeelsDeduction_self,
    specTempDeduction_21, specHumidityDeduction_50, specWindDeduction_0, specUVDeduction_0]
  norm_num

/-- Claim C8: `calculateComfortScore` is monotonically non-increasing in
each penalty driver taken in isolation, with the other factors held at
their ideal values (temperature 21, feels-like equal to temperature,
humidity 50, wind 0, UV 0, precipitation 0): growing `|temp−21|`, growing
humidity deviation from `[40,60]`, growing wind, growing UV and growing
precipitation never increase the returned score. -/
theorem claim_C8 :
    (∀ t1 t2 : ℚ, |t1 - 21| ≤ |t2 - 21| →
      calculateComfortScore t2 50 0 0 0 t2 ≤ calculateComfortScore t1 50 0 0 0 t1)
    ∧ (∀ h1 h2 : ℚ, humidityDeviation h1 ≤ humidityDeviation h2 →
      calculateComfortScore 21 h2 0 0 0 21 ≤ calculateComfortScore 21 h1 0 0 0 21)
    ∧ (∀ w1 w2 : ℚ, w1 ≤ w2 →
      calculateComfortScore 21 50 w2 0 0 21 ≤ calculateComfortScore 21 50 w1 0 0 21)
    ∧ (∀ u1 u2 : ℚ, u1 ≤ u2 →
      calculateComfortScore 21 50 0 u2 0 21 ≤ calculateComfortScore 21 50 0 u1 0 21)
    ∧ (∀ p1 p2 : ℚ, p1 ≤ p2 →
      calculateComfortScore 21 50 0 0 p2 21 ≤ calculateComfortScore 21 50 0 0 p1 21) := by
  refine ⟨?_, ?_, ?_, ?_, ?_⟩
  · intro t1 t2 h
    rw [ccs_temp_iso, ccs_temp_iso]
    exact score_of_single_deduction_antitone (specTempDeduction_mono h)
  · intro h1 h2 h
    rw [ccs_hum_iso, ccs_hum_iso]
    refine score_of_single_deduction_antitone ?_
    rw [specHumidityDeduction_eq_dev, specHumidityDeduction_eq_dev]
    exact specHumDevDeduction_mono h
  · intro w1 w2 h
    rw [ccs_wind_iso, ccs_wind_iso]
    exact score_of_single_deduction_antitone (specWindDeduction_mono h)
  · intro u1 u2 h
    rw [ccs_uv_iso, ccs_uv_iso]
    exact score_of_single_deduction_antitone (specUVDeduction_mono h)
  · intro p1 p2 h
    rw [ccs_precip_iso, ccs_precip_iso]
    exact score_of_single_deduction_antitone (specPrecipDeduction_mono h)

/-! ## Trend analyzer (weather trend analysis module)

Embeds `calculateWeeklyComparison` and `calculateLinearTrend` from the
trend-analysis module.  The formatted `summary` strings are display-only
and not modelled.  The temperature comparison's average and percentage can
be non-finite in JavaScript (empty slice, zero first-half average), so they
are carried as `Option ℚ`; the precipitation and wind legs only ever
divide by the literal 3 or behind an explicit guard and stay finite. -/

/-- The `daily` group as used by `calculateWeeklyComparison`. -/
structure TrendDaily where
  temperature_2m_max : List ℚ
  precipitation_sum : List ℚ
  wind_speed_10m_max : List ℚ
deriving DecidableEq

/-- The temperature leg of the weekly comparison. -/
structure TempComparison where
  change : Option ℚ
  direction : String
  percentage : Option ℚ
deriving DecidableEq

/-- The precipitation leg of the weekly comparison. -/
structure PrecipComparison where
  change : ℚ
  direction : String
  percentage : ℚ
deriving DecidableEq

/-- The wind leg of the weekly comparison (the source computes no
percentage for wind). -/
structure WindComparison where
  change : ℚ
  direction : String
deriving DecidableEq

/-- The record returned by `calculateWeeklyComparison`. -/
structure WeeklyComparison where
  temperature : TempComparison
  precipitation : PrecipComparison
  wind : WindComparison
deriving DecidableEq

/-- `calculateWeeklyComparison`, transcribed.  The temperature percentage
`Math.abs((tempChange / firstHalfAvg) * 100)` has no divide-by-zero guard
in the source; a zero `firstHalfAvg` therefore yields a non-finite number
(`none`).  The precipitation percentage is guarded
(`firstHalfPrecip > 0 ? … : 0`). -/
def calculateWeeklyComparison (daily : TrendDaily) : WeeklyComparison :=
  let firstHalf := jsSlice daily.temperature_2m_max 0 3
  let secondHalf := jsSlice daily.temperature_2m_max 4 7
  let firstHalfAvg := listAvg firstHalf
  let secondHalfAvg := listAvg secondHalf
  let tempChange := oSub secondHalfAvg firstHalfAvg
  let tempDirection := if oPos tempChange then "warmer" else "cooler"
  let tempPercentage := oAbs (oMulC (oDiv tempChange firstHalfAvg) 100)
  let firstHalfPrecip := (jsSlice daily.precipitation_sum 0 3).sum
  let secondHalfPrecip := (jsSlice daily.precipitation_sum 4 7).sum
  let precipChange := secondHalfPrecip - firstHalfPrecip
  let precipDirection := if precipChange > 0 then "wetter" else "drier"
  let precipPercentage :=
    if firstHalfPrecip > 0 then |precipChange / firstHalfPrecip * 100| else 0
  let firstHalfWind := (jsSlice daily.wind_speed_10m_max 0 3).sum / 3
  let secondHalfWind := (jsSlice daily.wind_speed_10m_max 4 7).sum / 3
  let windChange := secondHalfWind - firstHalfWind
  let windDirection := if windChange > 0 then "windier" else "calmer"
  { temperature := { change := tempChange, direction := tempDirection, percentage := tempPercentage }
    precipitation := { change := precipChange, direction := precipDirection, percentage := precipPercentage }
    wind := { change := windChange, direction := windDirection } }

/-- The result of `calculateLinearTrend`.  With fewer than 2 points the
denominator `n*sumXX - sumX*sumX` is 0 and the unguarded divisions produce
non-finite numbers (`none`). -/
structure LinearTrend where
  slope : Option ℚ
  intercept : Option ℚ
deriving DecidableEq

/-- `calculateLinearTrend`, transcribed: ordinary least squares over the
index as independent variable.  The source performs the divisions without
any zero check; the `Option` accounts for the non-finite JavaScript result
when the denominator is 0. -/
def calculateLinearTrend (data : List ℚ) : LinearTrend :=
  let n : ℚ := data.length
  let sumX := (data.enum.map fun p => ((p.1 : ℚ))).sum
  let sumY := (data.enum.map fun p => p.2).sum
  let sumXY := (data.enum.map fun p => (p.1 : ℚ) * p.2).sum
  let sumXX := (data.enum.map fun p => (p.1 : ℚ) * (p.1 : ℚ)).sum
  let slope :=
    if n * sumXX - sumX * sumX = 0 then none
    else some ((n * sumXY - sumX * sumY) / (n * sumXX - sumX * sumX))
  let intercept :=
    match slope with
    | none => none
    | some s => some ((sumY - s * sumX) / n)
  { slope := slope, intercept := intercept }

theorem range_cast_sum (n : ℕ) :
    ((List.range n).map (Nat.cast : ℕ → ℚ)).sum = (n : ℚ) * ((n : ℚ) - 1) / 2 := by
  induction n with
  | zero => simp
  | succ m ih =>
    rw [List.range_succ, List.map_append, List.sum_append, ih]
    push_cast
    simp
    ring

theorem range_cast_sq_sum (n : ℕ) :
    ((List.range n).map fun i => (Nat.cast i : ℚ) * (Nat.cast i : ℚ)).sum
      = (n : ℚ) * ((n : ℚ) - 1) * (2 * (n : ℚ) - 1) / 6 := by
  induction n with
  | zero => simp
  | succ m ih =>
    rw [List.range_succ, List.map_append, List.sum_append, ih]
    push_cast
    simp
    ring

theorem enum_cast_sum (data : List ℚ) :
    (data.enum.map fun p => ((p.1 : ℚ))).sum
      = (data.length : ℚ) * ((data.length : ℚ) - 1) / 2 := by
  have h : (data.enum.map fun p => ((p.1 : ℚ)))
      = (List.range data.length).map (Nat.cast : ℕ → ℚ) := by
    rw [← List.enum_map_fst data, List.map_map]
    rfl
  rw [h, range_cast_sum]

theorem enum_cast_sq_sum (data : List ℚ) :
    (data.enum.map fun p => ((p.1 : ℚ)) * ((p.1 : ℚ))).sum
      = (data.length : ℚ) * ((data.length : ℚ) - 1) * (2 * (data.length : ℚ) - 1) / 6 := by
  have h : (data.enum.map fun p => ((p.1 : ℚ)) * ((p.1 : ℚ)))
      = (List.range data.length).map fun i => (Nat.cast i : ℚ) * (Nat.cast i : ℚ) := by
    rw [← List.enum_map_fst data, List.map_map]
    rfl
  rw [h, range_cast_sq_sum]

theorem linearTrend_denom_eq_zero_iff (data : List ℚ) :
    ((data.length : ℚ) * (data.enum.map fun p => ((p.1 : ℚ)) * ((p.1 : ℚ))).sum
        - (data.enum.map fun p => ((p.1 : ℚ))).sum * (data.enum.map fun p => ((p.1 : ℚ))).sum = 0)
      ↔ data.length < 2 := by
  have hd : (data.length : ℚ) * (data.enum.map fun p => ((p.1 : ℚ)) * ((p.1 : ℚ))).sum
        - (data.enum.map fun p => ((p.1 : ℚ))).sum * (data.enum.map fun p => ((p.1 : ℚ))).sum
      = (data.length : ℚ) * (data.length : ℚ) * ((data.length : ℚ) - 1)
          * ((data.length : ℚ) + 1) / 12 := by
    rw [enum_cast_sum, enum_cast_sq_sum]
    ring
  rw [hd]
  constructor
  · intro hz
    by_contra hge
    have h2 : 2 ≤ data.length := by omega
    have h2q : (2 : ℚ) ≤ (data.length : ℚ) := by exact_mod_cast h2
    have hpos : (0 : ℚ) < (data.length : ℚ) * (data.length : ℚ) * ((data.length : ℚ) - 1)
        * ((data.length : ℚ) + 1) / 12 := by
      have ha : (0 : ℚ) < (data.length : ℚ) := by linarith
      have hb : (0 : ℚ) < (data.length : ℚ) - 1 := by linarith
      have hc : (0 : ℚ) < (data.length : ℚ) + 1 := by linarith
      positivity
    linarith
  · intro hlt
    rcases (by omega : data.length = 0 ∨ data.length = 1) with h0 | h0 <;>
      rw [h0] <;> norm_num

theorem calculateLinearTrend_slope_none_iff (data : List ℚ) :
    (calculateLinearTrend data).slope = none ↔ data.length < 2 := by
  rw [← linearTrend_denom_eq_zero_iff data]
  simp only [calculateLinearTrend]
  split_ifs with h
  · simp [h]
  · simp [h]

/-- Claim C5 (amended): `calculateLinearTrend` performs the slope division
without any zero guard; on a series with fewer than 2 elements (exactly the
inputs with `n*sumXX - sumX*sumX = 0`) the slope is the non-finite result
of dividing by zero — modelled `none` — and not 0.  For 2 or more elements
the denominator is nonzero and the slope is a finite number. -/
theorem claim_C5_amended (data : List ℚ) :
    (calculateLinearTrend data).slope = none ↔ data.length < 2 := by
  rw [← linearTrend_denom_eq_zero_iff data]
  simp only [calculateLinearTrend]
  split_ifs with h
  · simp [h]
  · simp [h]

/-- Claim C5 counterexample: on the one-element series `[5]` the claimed
guard does not exist — the slope is the non-finite result of `0/0`
(modelled `none`), not the claimed slope 0. -/
theorem claim_C5_counterexample :
    (calculateLinearTrend [(5 : ℚ)]).slope = none
    ∧ (calculateLinearTrend [(5 : ℚ)]).slope ≠ some 0 := by
  have h : (calculateLinearTrend [(5 : ℚ)]).slope = none := by
    norm_num [calculateLinearTrend, List.enum, List.enumFrom]
  refine ⟨h, ?_⟩
  rw [h]
  exact fun hc => Option.noConfusion hc

theorem jsSlice_first3 (x0 x1 x2 x3 x4 x5 x6 : ℚ) :
    jsSlice [x0, x1, x2, x3, x4, x5, x6] 0 3 = [x0, x1, x2] := rfl

theorem jsSlice_last3 (x0 x1 x2 x3 x4 x5 x6 : ℚ) :
    jsSlice [x0, x1, x2, x3, x4, x5, x6] 4 7 = [x4, x5, x6] := rfl

theorem listAvg_three (x y z : ℚ) : listAvg [x, y, z] = some ((x + y + z) / 3) := by
  norm_num [listAvg]
  ring

theorem sum_three (x y z : ℚ) : ([x, y, z] : List ℚ).sum = x + y + z := by
  simp
  ring

/-- Claim C1 (amended): on a 7-element daily series, written out as its
entries, `calculateWeeklyComparison` averages indices 0,1,2 as the first
half and 4,5,6 as the second half (index 3 excluded from both) for the
temperature and wind legs, whose `change` is the difference of the two
averages; the precipitation `change` is the difference of the two half
*sums*, not averages; `percentage = 0` at a zero first-half mean holds for
the precipitation leg (its guard `firstHalfPrecip > 0 ? … : 0` returns 0),
while the temperature percentage is unguarded and a zero first-half
temperature mean makes it the non-finite result of dividing by zero
(modelled `none`), not 0. -/
theorem claim_C1_amended
    (a0 a1 a2 a3 a4 a5 a6 b0 b1 b2 b3 b4 b5 b6 c0 c1 c2 c3 c4 c5 c6 : ℚ) :
    (calculateWeeklyComparison
        { temperature_2m_max := [a0, a1, a2, a3, a4, a5, a6]
          precipitation_sum := [b0, b1, b2, b3, b4, b5, b6]
          wind_speed_10m_max := [c0, c1, c2, c3, c4, c5, c6] }).temperature.change
      = some ((a4 + a5 + a6) / 3 - (a0 + a1 + a2) / 3)
    ∧ (calculateWeeklyComparison
        { temperature_2m_max := [a0, a1, a2, a3, a4, a5, a6]
          precipitation_sum := [b0, b1, b2, b3, b4, b5, b6]
          wind_speed_10m_max := [c0, c1, c2, c3, c4, c5, c6] }).wind.change
      = (c4 + c5 + c6) / 3 - (c0 + c1 + c2) / 3
    ∧ (calculateWeeklyComparison
        { temperature_2m_max := [a0, a1, a2, a3, a4, a5, a6]
          precipitation_sum := [b0, b1, b2, b3, b4, b5, b6]
          wind_speed_10m_max := [c0, c1, c2, c3, c4, c5, c6] }).precipitation.change
      = (b4 + b5 + b6) - (b0 + b1 + b2)
    ∧ ((b0 + b1 + b2) / 3 = 0 →
        (calculateWeeklyComparison
          { temperature_2m_max := [a0, a1, a2, a3, a4, a5, a6]
            precipitation_sum := [b0, b1, b2, b3, b4, b5, b6]
            wind_speed_10m_max := [c0, c1, c2, c3, c4, c5, c6] }).precipitation.percentage = 0)
    ∧ ((a0 + a1 + a2) / 3 = 0 →
        (calculateWeeklyComparison
          { temperature_2m_max := [a0, a1, a2, a3, a4, a5, a6]
            precipitation_sum := [b0, b1, b2, b3, b4, b5, b6]
            wind_speed_10m_max := [c0, c1, c2, c3, c4, c5, c6] }).temperature.percentage = none) := by
  simp only [calculateWeeklyComparison, jsSlice_first3, jsSlice_last3, listAvg_three, sum_three]
  refine ⟨?_, ?_, ?_, ?_, ?_⟩
  · simp [oSub]
  · trivial
  · trivial
  · intro hm
    have hs : b0 + b1 + b2 = 0 := by linarith
    rw [if_neg]
    rw [hs]
    norm_num
  · intro hm
    simp [oSub, oDiv, hm, oMulC, oAbs]

/-- Claim C1 counterexample: for the 7-day series with daily max
temperatures `[0,0,0,5,2,2,2]` and precipitation sums `[1,1,1,0,2,2,2]`,
the precipitation `change` is the half-sum difference 3, not the claimed
half-average difference 1; and the first-half temperature mean is 0 yet the
temperature `percentage` is the non-finite result of dividing by zero
(modelled `none`), not the claimed 0. -/
theorem claim_C1_counterexample :
    (calculateWeeklyComparison
        { temperature_2m_max := [0, 0, 0, 5, 2, 2, 2]
          precipitation_sum := [1, 1, 1, 0, 2, 2, 2]
          wind_speed_10m_max := [0, 0, 0, 0, 0, 0, 0] }).precipitation.change = 3
    ∧ (((2 : ℚ) + 2 + 2) / 3 - ((1 : ℚ) + 1 + 1) / 3 = 1)
    ∧ ((3 : ℚ) ≠ 1)
    ∧ listAvg (jsSlice [0, 0, 0, 5, 2, 2, 2] 0 3) = some 0
    ∧ (calculateWeeklyComparison
        { temperature_2m_max := [0, 0, 0, 5, 2, 2, 2]
          precipitation_sum := [1, 1, 1, 0, 2, 2, 2]
          wind_speed_10m_max := [0, 0, 0, 0, 0, 0, 0] }).temperature.percentage = none
    ∧ ((none : Option ℚ) ≠ some 0) := by
  refine ⟨?_, by norm_num, by norm_num, ?_, ?_, by simp⟩
  · simp only [calculateWeeklyComparison, jsSlice_first3, jsSlice_last3, sum_three]
    norm_num
  · rw [jsSlice_first3, listAvg_three]
    norm_num
  · simp only [calculateWeeklyComparison, jsSlice_first3, jsSlice_last3, listAvg_three]
    norm_num [oSub, oDiv, oMulC, oAbs]

/-- Claim C10: whenever the second-half mean equals the first-half mean for
each metric of a 7-element daily series (zero change), the strict
`change > 0` comparisons assign the zero-change labels: `cooler` for
temperature, `drier` for precipitation and `calmer` for wind. -/
theorem claim_C10
    (a0 a1 a2 a3 a4 a5 a6 b0 b1 b2 b3 b4 b5 b6 c0 c1 c2 c3 c4 c5 c6 : ℚ)
    (ht : (a4 + a5 + a6) / 3 = (a0 + a1 + a2) / 3)
    (hp : (b4 + b5 + b6) / 3 = (b0 + b1 + b2) / 3)
    (hw : (c4 + c5 + c6) / 3 = (c0 + c1 + c2) / 3) :
    (calculateWeeklyComparison
        { temperature_2m_max := [a0, a1, a2, a3, a4, a5, a6]
          precipitation_sum := [b0, b1, b2, b3, b4, b5, b6]
          wind_speed_10m_max := [c0, c1, c2, c3, c4, c5, c6] }).temperature.direction = "cooler"
    ∧ (calculateWeeklyComparison
        { temperature_2m_max := [a0, a1, a2, a3, a4, a5, a6]
          precipitation_sum := [b0, b1, b2, b3, b4, b5, b6]
          wind_speed_10m_max := [c0, c1, c2, c3, c4, c5, c6] }).precipitation.direction = "drier"
    ∧ (calculateWeeklyComparison
        { temperature_2m_max := [a0, a1, a2, a3, a4, a5, a6]
          precipitation_sum := [b0, b1, b2, b3, b4, b5, b6]
          wind_speed_10m_max := [c0, c1, c2, c3, c4, c5, c6] }).wind.direction = "calmer" := by
  simp only [calculateWeeklyComparison, jsSlice_first3, jsSlice_last3, listAvg_three, sum_three]
  refine ⟨?_, ?_, ?_⟩
  · rw [if_neg]
    simp only [oPos, oGt, oSub, ht]
    norm_num
  · rw [if_neg]
    have hs : b4 + b5 + b6 = b0 + b1 + b2 := by linarith
    rw [hs]
    norm_num
  · rw [if_neg]
    rw [hw]
    norm_num

/-- Claim C10 witness: a concrete 7-day series with equal half means in
every metric is labelled `cooler`, `drier` and `calmer`. -/
theorem claim_C10_witness :
    (calculateWeeklyComparison
        { temperature_2m_max := [1, 1, 1, 9, 1, 1, 1]
          precipitation_sum := [2, 2, 2, 0, 2, 2, 2]
          wind_speed_10m_max := [3, 3, 3, 7, 3, 3, 3] }).temperature.direction = "cooler"
    ∧ (calculateWeeklyComparison
        { temperature_2m_max := [1, 1, 1, 9, 1, 1, 1]
          precipitation_sum := [2, 2, 2, 0, 2, 2, 2]
          wind_speed_10m_max := [3, 3, 3, 7, 3, 3, 3] }).precipitation.direction = "drier"
    ∧ (calculateWeeklyComparison
        { temperature_2m_max := [1, 1, 1, 9, 1, 1, 1]
          precipitation_sum := [2, 2, 2, 0, 2, 2, 2]
          wind_speed_10m_max := [3, 3, 3, 7, 3, 3, 3] }).wind.direction = "calmer" :=
  claim_C10 1 1 1 9 1 1 1 2 2 2 0 2 2 2 3 3 3 7 3 3 3 rfl rfl rfl

/-! ## Pattern detector (weather pattern recognition module)

Embeds `detectTemperatureTrend`.  Each pattern record's `description`
string is display-only and not modelled; the remaining fields are kept. -/

/-- A pattern record as emitted by the detectors. -/
structure PatternRecord where
  ptype : String
  confidence : ℤ
  title : String
  icon : String
  timeframe : String
deriving DecidableEq

/-- The `hourly` group as used by `detectTemperatureTrend`. -/
structure PatternHourly where
  temperature_2m : List ℚ
deriving DecidableEq

/-- The `daily` group as used by `detectTemperatureTrend`. -/
structure PatternDaily where
  temperature_2m_max : List ℚ
deriving DecidableEq

/-- Number of day-over-day strict rises in a daily series (the source's
`risingCount` loop). -/
def risingCount (dailyTemps : List ℚ) : ℕ :=
  (dailyTemps.zip dailyTemps.tail).countP fun p => decide (p.1 < p.2)

/-- Number of day-over-day strict falls in a daily series (the source's
`fallingCount` loop). -/
def fallingCount (dailyTemps : List ℚ) : ℕ :=
  (dailyTemps.zip dailyTemps.tail).countP fun p => decide (p.2 < p.1)

/-- `Math.max(...temps) - Math.min(...temps) > c`, exactly as JavaScript
evaluates it (false for an empty array, where the difference is
`-Infinity`). -/
def tempSwingExceeds (temps : List ℚ) (c : ℚ) : Bool :=
  match temps.max?, temps.min? with
  | some hi, some lo => decide (c < hi - lo)
  | _, _ => false

/-- The volatility anomaly record emitted on a large 48-hour swing. -/
def volatilityRecord : PatternRecord :=
  { ptype := "anomaly", confidence := 90, title := "High Temperature Volatility",
    icon := "Zap", timeframe := "Next 48 hours" }

/-- The warming-trend record. -/
def warmingRecord : PatternRecord :=
  { ptype := "prediction", confidence := 85, title := "Warming Trend Identified",
    icon := "TrendingUp", timeframe := "Next 7 days" }

/-- The cooling-trend record. -/
def coolingRecord : PatternRecord :=
  { ptype := "prediction", confidence := 85, title := "Cooling Trend Identified",
    icon := "TrendingDown", timeframe := "Next 7 days" }

/-- `detectTemperatureTrend`, transcribed: the rising/falling trend checks
return first; only when neither fires is the 48-hour swing examined. -/
def detectTemperatureTrend (hourly : PatternHourly) (daily : PatternDaily) :
    Option PatternRecord :=
  let temps := hourly.temperature_2m.take 48
  let dailyTemps := daily.temperature_2m_max.take 7
  if 4 ≤ risingCount dailyTemps then some warmingRecord
  else if 4 ≤ fallingCount dailyTemps then some coolingRecord
  else if tempSwingExceeds temps 15 then some volatilityRecord
  else none

/-- Claim C6 (amended): the temperature pattern detector emits the
high-temperature-volatility anomaly exactly when the first 48 hourly
temperatures swing by more than 15°C *and* the 7-day max series has neither
4 rising nor 4 falling day-over-day steps; when a warming or cooling trend
fires, that single record is returned instead — the detector returns at
most one record, so a large swing alone does not guarantee the anomaly. -/
theorem claim_C6_amended (hourly : PatternHourly) (daily : PatternDaily) :
    detectTemperatureTrend hourly daily = some volatilityRecord
      ↔ (risingCount (daily.temperature_2m_max.take 7) < 4
          ∧ fallingCount (daily.temperature_2m_max.take 7) < 4
          ∧ tempSwingExceeds (hourly.temperature_2m.take 48) 15 = true) := by
  rw [detectTemperatureTrend]
  split_ifs with h1 h2 h3
  · have hne : warmingRecord ≠ volatilityRecord := by
      simp [warmingRecord, volatilityRecord]
    constructor
    · intro hc
      exact absurd (Option.some_inj.mp hc) hne
    · rintro ⟨hr, -, -⟩
      omega
  · have hne : coolingRecord ≠ volatilityRecord := by
      simp [coolingRecord, volatilityRecord]
    constructor
    · intro hc
      exact absurd (Option.some_inj.mp hc) hne
    · rintro ⟨-, hf, -⟩
      omega
  · constructor
    · intro _
      exact ⟨by omega, by omega, h3⟩
    · intro _
      rfl
  · constructor
    · intro hc
      exact hc.elim
    · rintro ⟨-, -, hs⟩
      exact absurd hs h3

/-- Claim C6 counterexample: with the first 48 hourly temperatures swinging
by 20°C (`[0, 20]`) but the 7-day max series rising every day, the detector
returns the warming-trend record, not the claimed volatility anomaly. -/
theorem claim_C6_counterexample :
    tempSwingExceeds (([0, 20] : List ℚ).take 48) 15 = true
    ∧ detectTemperatureTrend { temperature_2m := [0, 20] }
        { temperature_2m_max := [1, 2, 3, 4, 5, 6, 7] } = some warmingRecord
    ∧ detectTemperatureTrend { temperature_2m := [0, 20] }
        { temperature_2m_max := [1, 2, 3, 4, 5, 6, 7] } ≠ some volatilityRecord := by
  have htake : (([0, 20] : List ℚ)).take 48 = [0, 20] := rfl
  have hswing : tempSwingExceeds ([0, 20] : List ℚ) 15 = true := by
    norm_num [tempSwingExceeds, List.max?, List.min?, List.foldl, max_def, min_def]
  have hrise : risingCount (([1, 2, 3, 4, 5, 6, 7] : List ℚ).take 7) = 6 := by
    norm_num [risingCount, List.zip, List.zipWith, List.countP_cons, List.countP_nil]
  refine ⟨by rw [htake]; exact hswing, ?_, ?_⟩
  · rw [detectTemperatureTrend]
    rw [if_pos]
    rw [hrise]
    omega
  · rw [detectTemperatureTrend]
    rw [if_pos]
    · intro hc
      have := Option.some_inj.mp hc
      simp [warmingRecord, volatilityRecord] at this
    · rw [hrise]
      omega

/-! ## Event detector (event-based weather analysis module)

Embeds `detectWeatherEvents`.  An event's `day`/`date` display strings are
modelled by the day index; `details` and `description` are display-only and
not modelled.  An event's `probability` is `Option ℚ` because the
heavy-rain detector copies `daily.precipitation_probability_max[day]`,
which is `undefined` when that read is out of bounds.

The source sorts with `events.sort((a, b) => b.probability - a.probability)`;
ECMAScript requires `Array.prototype.sort` to be stable, and for a
consistent comparator any stable sort produces the same list, so the sort
is modelled by a stable insertion sort driven by the same comparator
(`probLt`).  When a probability is `undefined` the JavaScript comparator
returns `NaN`, which the sort treats as equality (`+0`), matching
`probLt`'s `false`. -/

/-- An event record (displayed fields reduced as described above). -/
structure WeatherEvent where
  type : String
  day : ℕ
  probability : Option ℚ
  severity : String
deriving DecidableEq

/-- The `hourly` group as used by `detectWeatherEvents`; `precipitation`
and `wind_gusts_10m` are read behind truthiness guards in the source and
the slices taken from them are never used afterwards. -/
structure EventsHourly where
  time : List String
  temperature_2m : List ℚ
  precipitation_probability : List ℚ
  precipitation : Option (List ℚ)
  wind_speed_10m : List ℚ
  wind_gusts_10m : Option (List ℚ)
  weather_code : List ℚ
deriving DecidableEq

/-- The `daily` group as used by `detectWeatherEvents`; the fields the
source reads behind `field ? field[day] : 0` guards are `Option`. -/
structure EventsDaily where
  time : List String
  temperature_2m_max : List ℚ
  temperature_2m_min : List ℚ
  uv_index_max : List ℚ
  precipitation_sum : Option (List ℚ)
  precipitation_probability_max : List ℚ
  wind_speed_10m_max : Option (List ℚ)
  wind_gusts_10m_max : Option (List ℚ)
deriving DecidableEq

/-- `field ? field[day] : 0` for an optional parallel array. -/
def optFieldAt (field : Option (List ℚ)) (day : ℕ) : Option ℚ :=
  match field with
  | some l => l.get? day
  | none => some 0

/-- `calculateHeatwaveProbability` (an out-of-bounds temperature read fails
every comparison and yields the default 60). -/
def calculateHeatwaveProbability (temp : Option ℚ) : ℚ :=
  match temp with
  | some t => if 38 < t then 95 else if 35 < t then 85 else if 32 < t then 75 else 60
  | none => 60

/-- `calculateColdSnapProbability`. -/
def calculateColdSnapProbability (temp : Option ℚ) : ℚ :=
  match temp with
  | some t => if t < 0 then 95 else if t < 3 then 85 else if t < 5 then 75 else 60
  | none => 60

/-- `calculateWindProbability`. -/
def calculateWindProbability (wind gusts : Option ℚ) : ℚ :=
  if oGt gusts 80 then 90
  else if oGt gusts 60 then 80
  else if oGt wind 50 then 75
  else if oGt wind 40 then 70
  else 60

/-- The day's 24-hour slice of hourly weather codes
(`hourly.weather_code.slice(dayStart, dayEnd)`). -/
def dayCodes (hourly : EventsHourly) (day : ℕ) : List ℚ :=
  let dayStart := day * 24
  let dayEnd := min ((day + 1) * 24) hourly.time.length
  (hourly.weather_code.drop dayStart).take (dayEnd - dayStart)

/-- Heatwave: `max[day] > 32 && max[day+1] > 32` (the read of `day + 1` is
out of bounds on the last day of the series, making the comparison false). -/
def heatwaveEvent (daily : EventsDaily) (day : ℕ) : Option WeatherEvent :=
  if oGt (daily.temperature_2m_max.get? day) 32
      && oGt (daily.temperature_2m_max.get? (day + 1)) 32 then
    some { type := "heatwave", day := day
           probability := some (calculateHeatwaveProbability (daily.temperature_2m_max.get? day))
           severity := if oGt (daily.temperature_2m_max.get? day) 38 then "extreme" else "high" }
  else none

/-- Cold snap: `min[day] < 5 && max[day] < 12`. -/
def coldSnapEvent (daily : EventsDaily) (day : ℕ) : Option WeatherEvent :=
  if oLt (daily.temperature_2m_min.get? day) 5
      && oLt (daily.temperature_2m_max.get? day) 12 then
    some { type := "cold_snap", day := day
           probability := some (calculateColdSnapProbability (daily.temperature_2m_min.get? day))
           severity := if oLt (daily.temperature_2m_min.get? day) 0 then "extreme" else "moderate" }
  else none

/-- Heavy rain: `sum > 15 || probMax > 70`; the event's probability is the
raw `precipitation_probability_max[day]` read. -/
def heavyRainEvent (daily : EventsDaily) (day : ℕ) : Option WeatherEvent :=
  if oGt (optFieldAt daily.precipitation_sum day) 15
      || oGt (daily.precipitation_probability_max.get? day) 70 then
    some { type := "heavy_rain", day := day
           probability := daily.precipitation_probability_max.get? day
           severity := if oGt (optFieldAt daily.precipitation_sum day) 30 then "high" else "moderate" }
  else none

/-- Thunderstorm: a code in `[95, 99]` among the day's hourly codes, or
`probMax > 60 && max > 25`. -/
def thunderstormEvent (hourly : EventsHourly) (daily : EventsDaily) (day : ℕ) :
    Option WeatherEvent :=
  let codes := dayCodes hourly day
  let hasThunderstorm := codes.any fun c => decide (95 ≤ c) && decide (c ≤ 99)
  if hasThunderstorm
      || (oGt (daily.precipitation_probability_max.get? day) 60
          && oGt (daily.temperature_2m_max.get? day) 25) then
    some { type := "thunderstorm", day := day
           probability := some (if hasThunderstorm then 85 else 60)
           severity :=
             if 3 < codes.countP fun c => decide (95 ≤ c) && decide (c ≤ 99) then "high"
             else "moderate" }
  else none

/-- Strong wind: `windMax > 40 || gustMax > 60`. -/
def strongWindEvent (daily : EventsDaily) (day : ℕ) : Option WeatherEvent :=
  if oGt (optFieldAt daily.wind_speed_10m_max day) 40
      || oGt (optFieldAt daily.wind_gusts_10m_max day) 60 then
    some { type := "strong_wind", day := day
           probability := some (calculateWindProbability (optFieldAt daily.wind_speed_10m_max day)
             (optFieldAt daily.wind_gusts_10m_max day))
           severity :=
             if oGt (optFieldAt daily.wind_gusts_10m_max day) 80 then "extreme"
             else if oGt (optFieldAt daily.wind_gusts_10m_max day) 60 then "high"
             else "moderate" }
  else none

/-- Frontal passage: `|max[day] - max[day-1]| > 10` for `day > 0` (the
source's `tempChange` is written out in full here). -/
def frontEvent (daily : EventsDaily) (day : ℕ) : Option WeatherEvent :=
  if 0 < day then
    if oGt (oAbs (oSub (daily.temperature_2m_max.get? day)
        (daily.temperature_2m_max.get? (day - 1)))) 10 then
      some { type :=
               if oPos (oSub (daily.temperature_2m_max.get? day)
                   (daily.temperature_2m_max.get? (day - 1))) then "warm_front"
               else "cold_front"
             day := day
             probability := some 80
             severity :=
               if oGt (oAbs (oSub (daily.temperature_2m_max.get? day)
                   (daily.temperature_2m_max.get? (day - 1)))) 15 then "high"
               else "moderate" }
    else none
  else none

/-- The events of one day, in the source's detection order. -/
def eventsForDay (hourly : EventsHourly) (daily : EventsDaily) (day : ℕ) :
    List WeatherEvent :=
  (heatwaveEvent daily day).toList ++ (coldSnapEvent daily day).toList ++
    (heavyRainEvent daily day).toList ++ (thunderstormEvent hourly daily day).toList ++
    (strongWindEvent daily day).toList ++ (frontEvent daily day).toList

/-- The unsorted event list of the per-day scan over
`day < min(7, daily.time.length)`. -/
def rawWeatherEvents (hourly : EventsHourly) (daily : EventsDaily) : List WeatherEvent :=
  (List.range (min 7 daily.time.length)).bind fun day => eventsForDay hourly daily day

/-- `probLt a b` holds when `a.probability` is strictly below
`b.probability`.  The JavaScript comparator
`(a, b) => b.probability - a.probability` places `a` before `b` exactly
when `probLt b a`; when either probability is `undefined` the comparator
returns `NaN`, treated as equality, so `probLt` is `false` then. -/
def probLt (a b : WeatherEvent) : Bool :=
  match a.probability, b.probability with
  | some x, some y => decide (x < y)
  | _, _ => false

/-- Stable insertion driven by the comparator: the new element passes over
exactly the elements it must precede (strictly smaller probability). -/
def insertByProb (e : WeatherEvent) : List WeatherEvent → List WeatherEvent
  | [] => [e]
  | y :: ys => if probLt y e then e :: y :: ys else y :: insertByProb e ys

/-- The stable descending sort modelling `events.sort((a, b) =>
b.probability - a.probability)`. -/
def sortByProbDesc (l : List WeatherEvent) : List WeatherEvent :=
  l.foldl (fun acc e => insertByProb e acc) []

/-- `detectWeatherEvents`: per-day scan, then the stable sort. -/
def detectWeatherEvents (hourly : EventsHourly) (daily : EventsDaily) : List WeatherEvent :=
  sortByProbDesc (rawWeatherEvents hourly daily)

/-- `probIs c x`: the event's probability is the finite number `c`. -/
def probIs (c : ℚ) (x : WeatherEvent) : Bool := decide (x.probability = some c)

theorem probLt_asymm {y e : WeatherEvent} (h : probLt y e = true) : probLt e y = false := by
  cases hy : y.probability with
  | none => simp [probLt, hy] at h
  | some x =>
    cases he : e.probability with
    | none => simp [probLt, hy, he] at h
    | some z =>
      simp [probLt, hy, he] at h ⊢
      linarith

theorem probLt_false_trans {y e z : WeatherEvent} (h1 : probLt y e = true)
    (h2 : probLt y z = false) : probLt e z = false := by
  cases hy : y.probability with
  | none => simp [probLt, hy] at h1
  | some a =>
    cases he : e.probability with
    | none => simp [probLt, hy, he] at h1
    | some b =>
      cases hz : z.probability with
      | none => simp [probLt, he, hz]
      | some c =>
        simp [probLt, hy, he, hz] at h1 h2 ⊢
        linarith

theorem probIs_false_of_lt {y e : WeatherEvent} {c : ℚ}
    (hp : probLt y e = true) (hpe : probIs c e = true) : probIs c y = false := by
  cases hy : y.probability with
  | none => simp [probIs, hy]
  | some a =>
    cases he : e.probability with
    | none => simp [probLt, hy, he] at hp
    | some b =>
      simp [probLt, hy, he] at hp
      simp [probIs, he] at hpe
      simp [probIs, hy]
      intro hac
      rw [hac, ← hpe] at hp
      exact lt_irrefl b hp

theorem probIs_false_of_chain {y e z : WeatherEvent} {c : ℚ}
    (hp : probLt y e = true) (hpe : probIs c e = true) (hyz : probLt y z = false) :
    probIs c z = false := by
  cases hy : y.probability with
  | none => simp [probLt, hy] at hp
  | some a =>
    cases he : e.probability with
    | none => simp [probLt, hy, he] at hp
    | some b =>
      cases hz : z.probability with
      | none => simp [probIs, hz]
      | some d =>
        simp [probLt, hy, he] at hp
        simp [probIs, he] at hpe
        simp [probLt, hy, hz] at hyz
        simp [probIs, hz]
        intro hdc
        rw [hdc, ← hpe] at hyz
        linarith

theorem mem_insertByProb {a e : WeatherEvent} {l : List WeatherEvent} :
    a ∈ insertByProb e l ↔ a = e ∨ a ∈ l := by
  induction l with
  | nil => simp [insertByProb]
  | cons y ys ih =>
    rw [insertByProb]
    split_ifs with hp
    · simp [List.mem_cons]
    · simp [List.mem_cons, ih]
      tauto

theorem pairwise_insertByProb {e : WeatherEvent} {l : List WeatherEvent}
    (h : l.Pairwise fun a b => probLt a b = false) :
    (insertByProb e l).Pairwise fun a b => probLt a b = false := by
  induction l with
  | nil => simp [insertByProb]
  | cons y ys ih =>
    rw [insertByProb]
    obtain ⟨hy, hys⟩ := List.pairwise_cons.mp h
    split_ifs with hp
    · refine List.Pairwise.cons ?_ h
      intro z hz
      rcases List.mem_cons.mp hz with rfl | hz
      · exact probLt_asymm hp
      · exact probLt_false_trans hp (hy z hz)
    · refine List.Pairwise.cons ?_ (ih hys)
      intro z hz
      rcases mem_insertByProb.mp hz with rfl | hz
      · simpa using hp
      · exact hy z hz

theorem filter_insertByProb {e : WeatherEvent} {l : List WeatherEvent} (c : ℚ)
    (h : l.Pairwise fun a b => probLt a b = false) :
    (insertByProb e l).filter (probIs c)
      = if probIs c e then l.filter (probIs c) ++ [e] else l.filter (probIs c) := by
  induction l with
  | nil =>
    rw [insertByProb]
    by_cases hpe : probIs c e
    · rw [if_pos hpe]
      simp [List.filter_cons, hpe]
    · rw [if_neg hpe]
      simp only [Bool.not_eq_true] at hpe
      simp [List.filter_cons, hpe]
  | cons y ys ih =>
    obtain ⟨hy, hys⟩ := List.pairwise_cons.mp h
    rw [insertByProb]
    by_cases hp : probLt y e
    · rw [if_pos hp]
      by_cases hpe : probIs c e
      · rw [if_pos hpe]
        have hfil : (y :: ys).filter (probIs c) = [] := by
          rw [List.filter_eq_nil]
          intro z hz
          rcases List.mem_cons.mp hz with rfl | hz
          · simp [probIs_false_of_lt hp hpe]
          · simp [probIs_false_of_chain hp hpe (hy z hz)]
        rw [List.filter_cons, if_pos hpe, hfil]
        rfl
      · rw [if_neg hpe]
        rw [List.filter_cons, if_neg hpe]
    · rw [if_neg hp]
      by_cases hpe : probIs c e
      · rw [if_pos hpe, List.filter_cons, List.filter_cons, ih hys, if_pos hpe]
        by_cases hpy : probIs c y
        · rw [if_pos hpy, if_pos hpy]
          rfl
        · rw [if_neg hpy, if_neg hpy]
      · rw [if_neg hpe, List.filter_cons, List.filter_cons, ih hys, if_neg hpe]

theorem sortByProbDesc_fold (l : List WeatherEvent) :
    ∀ acc : List WeatherEvent, (acc.Pairwise fun a b => probLt a b = false) →
    ((l.foldl (fun a e => insertByProb e a) acc).Pairwise fun a b => probLt a b = false)
    ∧ ∀ c : ℚ, (l.foldl (fun a e => insertByProb e a) acc).filter (probIs c)
        = acc.filter (probIs c) ++ l.filter (probIs c) := by
  induction l with
  | nil =>
    intro acc hacc
    exact ⟨hacc, fun c => by simp⟩
  | cons e l ih =>
    intro acc hacc
    rw [List.foldl_cons]
    obtain ⟨pw, hf⟩ := ih (insertByProb e acc) (pairwise_insertByProb hacc)
    refine ⟨pw, ?_⟩
    intro c
    rw [hf c, filter_insertByProb c hacc, List.filter_cons]
    by_cases hpe : probIs c e
    · rw [if_pos hpe, if_pos hpe]
      simp
    · rw [if_neg hpe, if_neg hpe]

theorem mem_sortByProbDesc_fold (a : WeatherEvent) (l : List WeatherEvent) :
    ∀ acc : List WeatherEvent,
      (a ∈ l.foldl (fun ac e => insertByProb e ac) acc ↔ a ∈ acc ∨ a ∈ l) := by
  induction l with
  | nil =>
    intro acc
    simp
  | cons e l ih =>
    intro acc
    rw [List.foldl_cons, ih (insertByProb e acc)]
    rw [mem_insertByProb]
    simp [List.mem_cons]
    tauto

theorem mem_detectWeatherEvents {a : WeatherEvent} {hourly : EventsHourly}
    {daily : EventsDaily} :
    a ∈ detectWeatherEvents hourly daily ↔ a ∈ rawWeatherEvents hourly daily := by
  rw [detectWeatherEvents, sortByProbDesc, mem_sortByProbDesc_fold]
  simp

/-- Claim C7: `detectWeatherEvents` returns the per-day scan's events in
descending order of the `probability` field — adjacent-or-later events are
never strictly more probable under the JavaScript comparator, and whenever
two listed events carry finite probabilities the later one's is no larger —
and the sort is stable: for every probability value, the sorted list's
events with that probability are exactly the raw scan's events with that
probability, in encounter order. -/
theorem claim_C7 (hourly : EventsHourly) (daily : EventsDaily) :
    ((detectWeatherEvents hourly daily).Pairwise fun a b => probLt a b = false)
    ∧ ((detectWeatherEvents hourly daily).Pairwise fun a b =>
        ∀ qa qb : ℚ, a.probability = some qa → b.probability = some qb → qb ≤ qa)
    ∧ ∀ c : ℚ, (detectWeatherEvents hourly daily).filter (probIs c)
        = (rawWeatherEvents hourly daily).filter (probIs c) := by
  obtain ⟨pw, hf⟩ := sortByProbDesc_fold (rawWeatherEvents hourly daily) [] (List.Pairwise.nil)
  refine ⟨pw, ?_, ?_⟩
  · refine pw.imp ?_
    intro a b hab qa qb ha hb
    rw [probLt, ha, hb] at hab
    simp at hab
    exact hab
  · intro c
    rw [detectWeatherEvents, sortByProbDesc, hf c]
    simp

theorem mem_option_toList {o : Option WeatherEvent} {a : WeatherEvent} :
    a ∈ o.toList ↔ o = some a := by
  cases o with
  | none => simp [Option.toList]
  | some x =>
    simp [Option.toList]
    exact comm

theorem heatwaveEvent_eq_some {daily : EventsDaily} {day : ℕ} {e : WeatherEvent}
    (h : heatwaveEvent daily day = some e) :
    e.day = day ∧ e.type = "heatwave" ∧ day + 1 < daily.temperature_2m_max.length := by
  rw [heatwaveEvent] at h
  by_cases hc : (oGt (daily.temperature_2m_max.get? day) 32
      && oGt (daily.temperature_2m_max.get? (day + 1)) 32) = true
  · rw [if_pos hc] at h
    have he := Option.some_inj.mp h
    subst he
    refine ⟨rfl, rfl, ?_⟩
    rw [Bool.and_eq_true] at hc
    cases hg : daily.temperature_2m_max.get? (day + 1) with
    | none =>
      rw [hg] at hc
      simp [oGt] at hc
    | some v => exact (List.get?_eq_some.mp hg).1
  · rw [if_neg hc] at h
    exact Option.noConfusion h

theorem coldSnapEvent_type {daily : EventsDaily} {day : ℕ} {e : WeatherEvent}
    (h : coldSnapEvent daily day = some e) : e.type = "cold_snap" := by
  rw [coldSnapEvent] at h
  by_cases hc : (oLt (daily.temperature_2m_min.get? day) 5
      && oLt (daily.temperature_2m_max.get? day) 12) = true
  · rw [if_pos hc] at h
    have he := Option.some_inj.mp h
    subst he
    rfl
  · rw [if_neg hc] at h
    exact Option.noConfusion h

theorem heavyRainEvent_type {daily : EventsDaily} {day : ℕ} {e : WeatherEvent}
    (h : heavyRainEvent daily day = some e) : e.type = "heavy_rain" := by
  rw [heavyRainEvent] at h
  by_cases hc : (oGt (optFieldAt daily.precipitation_sum day) 15
      || oGt (daily.precipitation_probability_max.get? day) 70) = true
  · rw [if_pos hc] at h
    have he := Option.some_inj.mp h
    subst he
    rfl
  · rw [if_neg hc] at h
    exact Option.noConfusion h

theorem thunderstormEvent_type {hourly : EventsHourly} {daily : EventsDaily} {day : ℕ}
    {e : WeatherEvent} (h : thunderstormEvent hourly daily day = some e) :
    e.type = "thunderstorm" := by
  simp only [thunderstormEvent] at h
  by_cases hc : (((dayCodes hourly day).any fun c => decide (95 ≤ c) && decide (c ≤ 99))
      || (oGt (daily.precipitation_probability_max.get? day) 60
          && oGt (daily.temperature_2m_max.get? day) 25)) = true
  · rw [if_pos hc] at h
    have he := Option.some_inj.mp h
    subst he
    rfl
  · rw [if_neg hc] at h
    exact Option.noConfusion h

theorem strongWindEvent_type {daily : EventsDaily} {day : ℕ} {e : WeatherEvent}
    (h : strongWindEvent daily day = some e) : e.type = "strong_wind" := by
  rw [strongWindEvent] at h
  by_cases hc : (oGt (optFieldAt daily.wind_speed_10m_max day) 40
      || oGt (optFieldAt daily.wind_gusts_10m_max day) 60) = true
  · rw [if_pos hc] at h
    have he := Option.some_inj.mp h
    subst he
    rfl
  · rw [if_neg hc] at h
    exact Option.noConfusion h

theorem frontEvent_type {daily : EventsDaily} {day : ℕ} {e : WeatherEvent}
    (h : frontEvent daily day = some e) :
    e.type = "warm_front" ∨ e.type = "cold_front" := by
  rw [frontEvent] at h
  by_cases hd : 0 < day
  · rw [if_pos hd] at h
    by_cases hc : oGt (oAbs (oSub (daily.temperature_2m_max.get? day)
        (daily.temperature_2m_max.get? (day - 1)))) 10 = true
    · rw [if_pos hc] at h
      have he := Option.some_inj.mp h
      subst he
      by_cases hpos : oPos (oSub (daily.temperature_2m_max.get? day)
          (daily.temperature_2m_max.get? (day - 1))) = true
      · left
        show (if oPos (oSub (daily.temperature_2m_max.get? day)
            (daily.temperature_2m_max.get? (day - 1))) then "warm_front" else "cold_front")
          = "warm_front"
        rw [if_pos hpos]
      · right
        show (if oPos (oSub (daily.temperature_2m_max.get? day)
            (daily.temperature_2m_max.get? (day - 1))) then "warm_front" else "cold_front")
          = "cold_front"
        rw [if_neg hpos]
    · rw [if_neg hc] at h
      exact Option.noConfusion h
  · rw [if_neg hd] at h
    exact Option.noConfusion h

/-- Claim C9 (amended): a heatwave event is only ever emitted for a day
whose successor index is still inside `daily.temperature_2m_max` — the
trigger reads `temperature_2m_max[day + 1]`, and an out-of-bounds read
yields no value, making the comparison false rather than an error (the
embedded scan is a total function).  In particular, when the daily series
has at most 7 entries no heatwave is emitted for the last examined day;
with longer series (the app fetches 14 days) day 6 reads day 7's value and
can fire even though day 6 is the last day examined. -/
theorem claim_C9_amended (hourly : EventsHourly) (daily : EventsDaily) (e : WeatherEvent)
    (hmem : e ∈ detectWeatherEvents hourly daily) (ht : e.type = "heatwave") :
    e.day + 1 < daily.temperature_2m_max.length := by
  rw [mem_detectWeatherEvents, rawWeatherEvents, List.mem_bind] at hmem
  obtain ⟨day, hday, hmem⟩ := hmem
  rw [eventsForDay] at hmem
  rcases List.mem_append.mp hmem with hmem | h
  · rcases List.mem_append.mp hmem with hmem | h
    · rcases List.mem_append.mp hmem with hmem | h
      · rcases List.mem_append.mp hmem with hmem | h
        · rcases List.mem_append.mp hmem with h | h
          · obtain ⟨hd, -, hb⟩ := heatwaveEvent_eq_some (mem_option_toList.mp h)
            rw [hd]
            exact hb
          · rw [coldSnapEvent_type (mem_option_toList.mp h)] at ht
            exact absurd ht (by simp)
        · rw [heavyRainEvent_type (mem_option_toList.mp h)] at ht
          exact absurd ht (by simp)
      · rw [thunderstormEvent_type (mem_option_toList.mp h)] at ht
        exact absurd ht (by simp)
    · rw [strongWindEvent_type (mem_option_toList.mp h)] at ht
      exact absurd ht (by simp)
  · rcases frontEvent_type (mem_option_toList.mp h) with hf | hf <;>
      rw [hf] at ht <;> exact absurd ht (by simp)

/-- An 8-day snapshot (the app fetches up to 14 days): days 5, 6 and 7 are
hot, everything else is calm.  Day 6 is the last day the scan examines. -/
def c9Daily : EventsDaily :=
  { time := ["d0", "d1", "d2", "d3", "d4", "d5", "d6", "d7"]
    temperature_2m_max := [30, 30, 30, 30, 30, 40, 40, 40]
    temperature_2m_min := [20, 20, 20, 20, 20, 20, 20, 20]
    uv_index_max := [5, 5, 5, 5, 5, 5, 5, 5]
    precipitation_sum := none
    precipitation_probability_max := [0, 0, 0, 0, 0, 0, 0, 0]
    wind_speed_10m_max := none
    wind_gusts_10m_max := none }

/-- An empty hourly group to accompany `c9Daily` (only the weather codes
and the time length are read by the scan). -/
def c9Hourly : EventsHourly :=
  { time := []
    temperature_2m := []
    precipitation_probability := []
    precipitation := none
    wind_speed_10m := []
    wind_gusts_10m := none
    weather_code := [] }

theorem c9_events_eq :
    detectWeatherEvents c9Hourly c9Daily
      = [{ type := "heatwave", day := 5, probability := some 95, severity := "extreme" },
         { type := "heatwave", day := 6, probability := some 95, severity := "extreme" }] := by
  have hrange : List.range (min 7 c9Daily.time.length) = [0, 1, 2, 3, 4, 5, 6] := rfl
  rw [detectWeatherEvents, rawWeatherEvents, hrange]
  norm_num [List.cons_bind, List.nil_bind, eventsForDay, heatwaveEvent, coldSnapEvent,
    heavyRainEvent, thunderstormEvent, strongWindEvent, frontEvent, optFieldAt, dayCodes,
    c9Daily, c9Hourly, oGt, oLt, oPos, oSub, oAbs, calculateHeatwaveProbability,
    List.get?, Option.toList, sortByProbDesc, insertByProb, probLt]

/-- Claim C9 counterexample: on the 8-day snapshot `c9Daily` the scan
examines days 0..6 (`min 7 8 = 7`), and a heatwave event *is* emitted for
day 6, the last day it examines, because `temperature_2m_max[7]` exists and
exceeds 32. -/
theorem claim_C9_counterexample :
    ({ type := "heatwave", day := 6, probability := some 95, severity := "extreme" }
        : WeatherEvent) ∈ detectWeatherEvents c9Hourly c9Daily
    ∧ min 7 c9Daily.time.length = 7 := by
  rw [c9_events_eq]
  exact ⟨by simp, rfl⟩

/-- Claim C9 witness: the amended bound, applied to the concrete day-5
heatwave of the same snapshot. -/
theorem claim_C9_witness :
    (({ type := "heatwave", day := 5, probability := some 95, severity := "extreme" }
        : WeatherEvent) ∈ detectWeatherEvents c9Hourly c9Daily
      ∧ ({ type := "heatwave", day := 5, probability := some 95, severity := "extreme" }
        : WeatherEvent).type = "heatwave")
    ∧ ({ type := "heatwave", day := 5, probability := some 95, severity := "extreme" }
        : WeatherEvent).day + 1 < c9Daily.temperature_2m_max.length := by
  have hmem : ({ type := "heatwave", day := 5, probability := some 95, severity := "extreme" }
      : WeatherEvent) ∈ detectWeatherEvents c9Hourly c9Daily := by
    rw [c9_events_eq]
    simp
  exact ⟨⟨hmem, rfl⟩, claim_C9_amended c9Hourly c9Daily _ hmem rfl⟩

/-! ## Impact forecaster (weather impact forecasting module)

Embeds `forecastWeatherImpacts` and its four category analyzers in an
error monad: the source guard checks only `weatherData`, `weatherData.current`
and `weatherData.daily`, yet `analyzeTransportationImpacts` dereferences
`hourly.precipitation_probability` unconditionally, so a snapshot whose
`hourly` group is absent throws a `TypeError`.  Record `description`,
`recommendations` and `timeframe` strings are display-only and not
modelled; the `current` group is never read by the analyzers, so only its
presence is modelled. -/

/-- An impact record (displayed fields reduced as described above). -/
structure Impact where
  category : String
  severity : String
  title : String
  probability : Option ℚ
deriving DecidableEq

/-- The `hourly` group as used by the impact analyzers. -/
structure ImpactsHourly where
  precipitation_probability : List ℚ
  wind_gusts_10m : List ℚ
deriving DecidableEq

/-- The `daily` group as used by the impact analyzers. -/
structure ImpactsDaily where
  precipitation_sum : List ℚ
  wind_speed_10m_max : List ℚ
  temperature_2m_min : List ℚ
  temperature_2m_max : List ℚ
  uv_index_max : List ℚ
  relative_humidity_2m_max : List ℚ
deriving DecidableEq

/-- A weather snapshot as consumed by `forecastWeatherImpacts`. -/
structure ImpactsData where
  current : Option Unit
  hourly : Option ImpactsHourly
  daily : Option ImpactsDaily
deriving DecidableEq

/-- `analyzeTransportationImpacts`: the only analyzer that touches the
`hourly` group, and it does so without a guard — an absent group is a
thrown `TypeError`. -/
def analyzeTransportationImpacts (daily : ImpactsDaily) (hourly : Option ImpactsHourly) :
    Except String (List Impact) :=
  match hourly with
  | none => Except.error
      "TypeError: Cannot read properties of undefined (reading precipitation_probability)"
  | some h =>
    Except.ok (
      (if (daily.precipitation_sum.take 2).sum > 10
          ∨ maxGT (h.precipitation_probability.take 24) 70 then
        [{ category := "transportation"
           severity := if (daily.precipitation_sum.take 2).sum > 20 then "high" else "medium"
           title := "Traffic Delays Expected"
           probability := (h.precipitation_probability.take 24).max? }]
      else []) ++
      (if maxGT (h.wind_gusts_10m.take 24) 60 then
        [{ category := "transportation", severity := "high"
           title := "High Winds Affecting Travel", probability := some 85 }]
      else if maxGT (daily.wind_speed_10m_max.take 2) 40 then
        [{ category := "transportation", severity := "medium"
           title := "Moderate Wind Impact on Travel", probability := some 75 }]
      else []) ++
      (if minLE (daily.temperature_2m_min.take 2) 0 then
        [{ category := "transportation", severity := "high"
           title := "Ice Hazard on Roads", probability := some 90 }]
      else []))

/-- `analyzeHealthImpacts`. -/
def analyzeHealthImpacts (daily : ImpactsDaily) : List Impact :=
  (if maxGE (daily.uv_index_max.take 3) 8 then
    [{ category := "health", severity := "high"
       title := "Extreme UV Radiation Risk", probability := some 95 }]
  else if maxGE (daily.uv_index_max.take 3) 6 then
    [{ category := "health", severity := "medium"
       title := "High UV Exposure", probability := some 85 }]
  else []) ++
  (if maxGE (daily.temperature_2m_max.take 3) 35 then
    [{ category := "health", severity := "high"
       title := "Heat Stress Warning", probability := some 90 }]
  else if maxGE (daily.temperature_2m_max.take 3) 30 then
    [{ category := "health", severity := "medium"
       title := "Heat Advisory", probability := some 80 }]
  else []) ++
  (if minLE (daily.temperature_2m_min.take 3) (-5) then
    [{ category := "health", severity := "high"
       title := "Severe Cold Warning", probability := some 90 }]
  else []) ++
  (if (daily.relative_humidity_2m_max.take 3).sum / 3 > 85 then
    [{ category := "health", severity := "medium"
       title := "High Humidity Health Impact", probability := some 75 }]
  else [])

/-- `analyzeOutdoorActivityImpacts`. -/
def analyzeOutdoorActivityImpacts (daily : ImpactsDaily) : List Impact :=
  (if (daily.precipitation_sum.take 2).sum < 2
      ∧ maxLT (daily.wind_speed_10m_max.take 2) 20
      ∧ 15 ≤ (daily.temperature_2m_max.take 2).sum / 2
      ∧ (daily.temperature_2m_max.take 2).sum / 2 ≤ 25 then
    [{ category := "outdoor", severity := "low"
       title := "Excellent Outdoor Conditions", probability := some 95 }]
  else if (daily.precipitation_sum.take 2).sum > 15 then
    [{ category := "outdoor", severity := "high"
       title := "Outdoor Activities Severely Impacted", probability := some 85 }]
  else if (daily.precipitation_sum.take 2).sum > 5 then
    [{ category := "outdoor", severity := "medium"
       title := "Outdoor Activities Affected", probability := some 70 }]
  else []) ++
  (if maxGT (daily.wind_speed_10m_max.take 2) 30 then
    [{ category := "outdoor", severity := "medium"
       title := "Wind Impact on Outdoor Sports", probability := some 80 }]
  else [])

/-- `analyzeEnergyImpacts`. -/
def analyzeEnergyImpacts (daily : ImpactsDaily) : List Impact :=
  (if maxGE (daily.temperature_2m_max.take 3) 30 then
    [{ category := "energy"
       severity := if maxGE (daily.temperature_2m_max.take 3) 35 then "high" else "medium"
       title := "High Cooling Energy Demand", probability := some 85 }]
  else []) ++
  (if minLE (daily.temperature_2m_min.take 3) 5 then
    [{ category := "energy"
       severity := if minLE (daily.temperature_2m_min.take 3) 0 then "high" else "medium"
       title := "High Heating Energy Demand", probability := some 85 }]
  else [])

/-- `forecastWeatherImpacts`: the guard returns `{ impacts: [] }` when the
snapshot, its `current` group or its `daily` group is absent — but not when
`hourly` is absent, which the transportation analyzer then dereferences. -/
def forecastWeatherImpacts (weatherData : Option ImpactsData) : Except String (List Impact) :=
  match weatherData with
  | none => Except.ok []
  | some wd =>
    match wd.current, wd.daily with
    | some _, some daily =>
      match analyzeTransportationImpacts daily wd.hourly with
      | Except.error e => Except.error e
      | Except.ok transport =>
        Except.ok (transport ++ analyzeHealthImpacts daily ++
          analyzeOutdoorActivityImpacts daily ++ analyzeEnergyImpacts daily)
    | _, _ => Except.ok []

/-- Claim C2 (code bug): the guarded calculators return their neutral
results on absent groups, but `forecastWeatherImpacts` applied to a
snapshot with `current` and `daily` present and the `hourly` group absent
does *not* return without error: its guard never checks `hourly`, and the
transportation analyzer's unguarded `hourly.precipitation_probability`
read throws.  The first conjunct evaluates the embedded code at that
failing input; the others show the guard's neutral result on the inputs it
does cover. -/
theorem claim_C2 :
    forecastWeatherImpacts (some
      { current := some ()
        hourly := none
        daily := some
          { precipitation_sum := [0, 0]
            wind_speed_10m_max := [0, 0]
            temperature_2m_min := [20, 20, 20]
            temperature_2m_max := [25, 25, 25]
            uv_index_max := [1, 1, 1]
            relative_humidity_2m_max := [50, 50, 50] } })
      = Except.error
        "TypeError: Cannot read properties of undefined (reading precipitation_probability)"
    ∧ forecastWeatherImpacts none = Except.ok []
    ∧ forecastWeatherImpacts (some { current := none, hourly := none, daily := none })
      = Except.ok []
    ∧ forecastWeatherImpacts (some
        { current := some (), hourly := some { precipitation_probability := [], wind_gusts_10m := [] }
          daily := none })
      = Except.ok [] :=
  ⟨rfl, rfl, rfl, rfl⟩
